import Mathlib

/-!
The Hugging Face inference client of go-transformer (`pkg/api/huggingface.go`).

A shallow embedding of `NewHFModel`, `NewHFModelWithToken`, `HFModel.Classify`,
`HFModel.Generate` and `HFModel.makeRequest`, with the data types of
`pkg/models/types.go` they use.

Conventions of the embedding.

* Go `int` is `Int`; no arithmetic is performed on it, only comparison with `0`.
* Go `float64` is its IEEE-754 binary64 bit pattern (`Float64.bits`); the only
  operation the client performs on a float is the comparison `x > 0`.
* A Go `map[string]interface{}` is an association list updated in place
  (`mapSet`) and read by key (`mapGet`).
* A Go `error` is a `GoError`: a message, and for errors built with `%w` the
  wrapped cause.
* What lies outside the repository is a parameter: `os.Getenv` is an argument of
  `NewHFModel`; URL parsing, the HTTP transport, the JSON text syntax read by
  `gjson`, and `strconv` are the fields of `World`.
* A call that may use the transport returns a `Call`: the requests handed to
  `Client.Do`, and the Go result pair.
-/

namespace GoTransformers

/-! ## Go values -/

/-- Go `float64`, as the IEEE-754 binary64 bit pattern (sign bit 63, exponent
bits 62..52, mantissa bits 51..0); patterns are read modulo `2^64`. -/
structure Float64 where
  bits : Nat
  deriving DecidableEq, Repr

/-- The bit pattern of `+Inf`. -/
def Float64.infBits : Nat := 0x7FF0000000000000

/-- Go `x > 0` on a `float64`: the sign bit is clear, the value is not a zero and
not a NaN (a NaN has pattern above `+Inf`); `+Inf > 0` holds. -/
def Float64.gtZero (x : Float64) : Bool :=
  decide (0 < x.bits % 2 ^ 64) && decide (x.bits % 2 ^ 64 ≤ Float64.infBits)

/-- A finite value: the exponent field is not all ones (neither `±Inf` nor NaN). -/
def Float64.isFinite (x : Float64) : Bool :=
  decide ((x.bits % 2 ^ 64) / 2 ^ 52 % 2048 ≠ 2047)

/-- The `float64` value `0` (`+0`). -/
def Float64.zero : Float64 := ⟨0⟩

/-- The `float64` value `1`. -/
def Float64.one : Float64 := ⟨0x3FF0000000000000⟩

/-- A Go `error`. `new` is an error without a cause (`fmt.Errorf` without `%w`, or
an error of a library); `wrap` is `fmt.Errorf` with `%w`: the formatted message and
the wrapped error. -/
inductive GoError where
  | new (msg : String)
  | wrap (msg : String) (cause : GoError)
  deriving DecidableEq, Repr

/-- The method `Error()`. -/
def GoError.Error : GoError → String
  | .new msg => msg
  | .wrap msg _ => msg

/-- The call `fmt.Errorf(format + ": %w", err)` for a format without other verbs. -/
def errorfW (context : String) (err : GoError) : GoError :=
  .wrap (context ++ ": " ++ err.Error) err

/-- The method `Unwrap()`: the cause of an error built with `%w`. -/
def GoError.Unwrap : GoError → Option GoError
  | .new _ => none
  | .wrap _ cause => some cause

/-- The call `errors.Is(err, target)`: `target` is `err` or is reached from it by
unwrapping. -/
def GoError.Is : GoError → GoError → Bool
  | .new msg, target => decide (GoError.new msg = target)
  | .wrap msg cause, target => decide (GoError.wrap msg cause = target) || cause.Is target

/-- The values stored in the request payload, a `map[string]interface{}`. -/
inductive Value where
  | string (s : String)
  | int (n : Int)
  | float64 (f : Float64)
  | bool (b : Bool)
  | map (m : List (String × Value))
  deriving Repr

/-- A Go `map[string]interface{}`: at most one entry per key. -/
abbrev GoMap := List (String × Value)

/-- The assignment `m[k] = v`. -/
def mapSet {α : Type} (m : List (String × α)) (k : String) (v : α) : List (String × α) :=
  match m with
  | [] => [(k, v)]
  | (k', v') :: rest => if k' = k then (k, v) :: rest else (k', v') :: mapSet rest k v

/-- The lookup `m[k]` with its presence flag. -/
def mapGet {α : Type} (m : List (String × α)) (k : String) : Option α :=
  match m with
  | [] => none
  | (k', v') :: rest => if k' = k then some v' else mapGet rest k

/-- The keys of a map. -/
def mapKeys {α : Type} (m : List (String × α)) : List String := m.map Prod.fst

/-! ## `pkg/models/types.go` -/

/-- The struct `models.GenerationOptions`. -/
structure GenerationOptions where
  MaxLength : Int
  Temperature : Float64
  TopP : Float64
  TopK : Int
  DoSample : Bool
  NumReturn : Int
  Stream : Bool
  deriving DecidableEq, Repr

/-- The struct `models.ClassificationResult`. -/
structure ClassificationResult where
  Label : String
  Score : Float64
  deriving DecidableEq, Repr

/-- The struct `models.GenerationResult`. -/
structure GenerationResult where
  GeneratedText : String
  Score : Float64
  deriving DecidableEq, Repr

/-! ## The request payload of `Generate` -/

/-- The map `parameters` of `HFModel.Generate` (huggingface.go, lines 106-125),
for non-nil options. -/
def generateParameters (options : GenerationOptions) : GoMap :=
  let parameters : GoMap := []
  let parameters :=
    if options.MaxLength > 0 then mapSet parameters "max_length" (.int options.MaxLength)
    else parameters
  let parameters :=
    if options.Temperature.gtZero then
      mapSet parameters "temperature" (.float64 options.Temperature)
    else parameters
  let parameters :=
    if options.TopP.gtZero then mapSet parameters "top_p" (.float64 options.TopP)
    else parameters
  let parameters :=
    if options.TopK > 0 then mapSet parameters "top_k" (.int options.TopK)
    else parameters
  let parameters :=
    if options.DoSample then mapSet parameters "do_sample" (.bool options.DoSample)
    else parameters
  let parameters :=
    if options.NumReturn > 0 then
      mapSet parameters "num_return_sequences" (.int options.NumReturn)
    else parameters
  parameters

/-- The map `payload` of `HFModel.Generate` (huggingface.go, lines 100-130);
`options = none` is the nil pointer. -/
def generatePayload (prompt : String) (options : Option GenerationOptions) : GoMap :=
  let payload : GoMap := [("inputs", .string prompt)]
  match options with
  | none => payload
  | some options =>
    let parameters := generateParameters options
    if parameters.length > 0 then mapSet payload "parameters" (.map parameters)
    else payload

/-- The map `payload` of `HFModel.Classify` (huggingface.go, lines 70-72). -/
def classifyPayload (text : String) : GoMap :=
  [("inputs", .string text)]

/-! ## The HTTP exchange -/

/-- The part of `http.Client` the client sets: the timeout, in nanoseconds. -/
structure HTTPClient where
  Timeout : Int
  deriving DecidableEq, Repr

/-- The struct `HFModel`. -/
structure HFModel where
  ModelName : String
  APIToken : String
  Client : HTTPClient
  BaseURL : String
  deriving DecidableEq, Repr

/-- The constant `HuggingFaceAPIBase`. -/
def HuggingFaceAPIBase : String := "https://api-inference.huggingface.co"

/-- The constant `time.Second`, in nanoseconds. -/
def Second : Int := 1000000000

/-- The constant `DefaultTimeout = 30 * time.Second`. -/
def DefaultTimeout : Int := 30 * Second

/-- The constant `http.StatusOK`. -/
def StatusOK : Int := 200

/-- An outgoing `http.Request`: method, URL, header fields, and the body as the
value whose JSON encoding `json.Marshal` produced (`none`: no body). -/
structure Request where
  Method : String
  URL : String
  Header : List (String × String)
  Body : Option Value
  deriving Repr

/-- An `http.Response` as `makeRequest` reads it: the status code, and what
`io.ReadAll(resp.Body)` returns. -/
structure Response where
  StatusCode : Int
  Body : Except GoError String

/-- A JSON document as `gjson` reads it. A number keeps its literal; a string keeps
its literal (`raw`, quotes included) and its unescaped content (`str`); an array or
object keeps its text (`raw`); the members of an object are in document order, keys
unescaped, repeated keys kept. -/
inductive JSON where
  | null
  | bool (b : Bool)
  | number (raw : String)
  | string (raw : String) (str : String)
  | array (raw : String) (elems : List JSON)
  | object (raw : String) (members : List (String × JSON))
  deriving Repr

/-- What lies outside the repository.

* `newRequestError method url`: the error of `http.NewRequestWithContext`, if any
  (the URL does not parse).
* `Do client req`: the call `client.Do(req)`, the transport and the remote endpoint
  together; a connection failure, the timeout of the client, and a cancelled or
  expired context of the caller are among its errors.
* `decode text`: the JSON document a text denotes, `none` exactly when
  `gjson.Valid` rejects the text.
* `ParseFloat s`: the value `strconv.ParseFloat(s, 64)` returns (its error dropped).
* `FormatFloat f`: `strconv.FormatFloat(f, 'f', -1, 64)`.
* `scanLiteral raw path`: what `gjson.Get` finds in a document that is a bare string
  literal `raw` containing a bracket; `gjson.Get` starts reading at the first `{` or
  `[` of its input, wherever it stands. -/
structure World where
  newRequestError : String → String → Option GoError
  Do : HTTPClient → Request → Except GoError Response
  decode : String → Option JSON
  ParseFloat : String → Float64
  FormatFloat : Float64 → String
  scanLiteral : String → String → Option JSON

mutual
/-- The first float of a value that `json.Marshal` cannot encode (`±Inf`, NaN). -/
def Value.unsupported : Value → Option Float64
  | .float64 f => if f.isFinite then none else some f
  | .map m => unsupportedEntries m
  | .string _ => none
  | .int _ => none
  | .bool _ => none
/-- The first unsupported float among the entries of a map. -/
def unsupportedEntries : List (String × Value) → Option Float64
  | [] => none
  | (_, v) :: rest =>
    match v.unsupported with
    | some f => some f
    | none => unsupportedEntries rest
end

/-- The text `strconv.FormatFloat(f, 'g', -1, 64)` of a non-finite float. -/
def formatNonFinite (f : Float64) : String :=
  if f.bits % 2 ^ 64 = Float64.infBits then "+Inf"
  else if f.bits % 2 ^ 64 = 2 ^ 63 + Float64.infBits then "-Inf"
  else "NaN"

/-- The call `json.Marshal(payload)` on the payloads of this client: it fails with an
`UnsupportedValueError` when the payload holds a non-finite float, and otherwise
yields the encoding of the payload, kept here as the payload itself. -/
def Marshal (payload : Value) : Except GoError Value :=
  match payload.unsupported with
  | some f => .error (.new ("json: unsupported value: " ++ formatNonFinite f))
  | none => .ok payload

/-- The outcome of a call that may use the transport: the requests handed to
`Client.Do`, in order, and the returned pair `(result, error)` (an error stands for
`(nil, err)`). -/
structure Call (α : Type) where
  sent : List Request
  result : Except GoError α

/-- The request `makeRequest` builds (huggingface.go, lines 156-175): the payload is
marshalled, the request created for `BaseURL + endpoint`, `Content-Type` set, and
`Authorization` set when the token is not empty. -/
def buildRequest (w : World) (hf : HFModel) (method endpoint : String)
    (payload : Option Value) : Except GoError Request :=
  let body : Except GoError (Option Value) :=
    match payload with
    | none => .ok none
    | some p =>
      match Marshal p with
      | .error err => .error (errorfW "failed to marshal payload" err)
      | .ok jsonData => .ok (some jsonData)
  match body with
  | .error err => .error err
  | .ok body =>
    let url := hf.BaseURL ++ endpoint
    match w.newRequestError method url with
    | some err => .error (errorfW "failed to create request" err)
    | none =>
      let header : List (String × String) := mapSet [] "Content-Type" "application/json"
      let header :=
        if hf.APIToken ≠ "" then mapSet header "Authorization" ("Bearer " ++ hf.APIToken)
        else header
      .ok ⟨method, url, header, body⟩

/-- The method `HFModel.makeRequest` (huggingface.go, lines 155-193). -/
def makeRequest (w : World) (hf : HFModel) (method endpoint : String)
    (payload : Option Value) : Call String :=
  match buildRequest w hf method endpoint payload with
  | .error err => ⟨[], .error err⟩
  | .ok req =>
    match w.Do hf.Client req with
    | .error err => ⟨[req], .error (errorfW "failed to make request" err)⟩
    | .ok resp =>
      match resp.Body with
      | .error err => ⟨[req], .error (errorfW "failed to read response" err)⟩
      | .ok responseBody =>
        if resp.StatusCode ≠ StatusOK then
          ⟨[req], .error (.new ("API request failed with status "
            ++ toString resp.StatusCode ++ ": " ++ responseBody))⟩
        else ⟨[req], .ok responseBody⟩

/-! ## `gjson` -/

/-- A `gjson.Result`: `none` is the zero result of a path that matched nothing
(type `Null`, empty `Raw`); `some d` is the document found, whose kind gives the
result type (`Null`, `False`, `True`, `Number`, `String`, `JSON`). -/
abbrev gjson.Result := Option JSON

/-- The call `gjson.Valid(json)`. -/
def gjson.Valid (w : World) (json : String) : Bool := (w.decode json).isSome

/-- Whether a text holds a `{` or a `[`. -/
def gjson.hasBracket (raw : String) : Bool :=
  raw.data.any (fun c => c = '{' || c = '[')

/-- The helper `parseUint` of `gjson`: the value of a non-empty run of decimal
digits, nothing for any other text. -/
def gjson.parseUint (s : String) : Option Nat :=
  match s.data with
  | [] => none
  | cs =>
    cs.foldl
      (fun acc c =>
        match acc with
        | none => none
        | some n => if c.isDigit then some (n * 10 + (c.toNat - 48)) else none)
      (some 0)

/-- What `gjson.Get` finds in the text of the document `doc`, for a path that is one
plain component (no `.`, `|`, `#`, `*`, `?`, `@`, `!` or backslash). In an object
the path names the first member with that key; in an array it is a decimal index; a
number, `true`, `false` or `null` has no bracket to start reading at, and neither
has a string literal without one. -/
def gjson.getPath (w : World) (doc : JSON) (path : String) : gjson.Result :=
  match doc with
  | .object _ members => mapGet members path
  | .array _ elems =>
    match gjson.parseUint path with
    | some n => elems.get? n
    | none => none
  | .string raw _ => if gjson.hasBracket raw then w.scanLiteral raw path else none
  | .number _ => none
  | .bool _ => none
  | .null => none

/-- The call `gjson.Get(json, path)` on a text. The client calls it after
`gjson.Valid` has accepted the text; for a text that is not valid JSON the library
promises nothing, and nothing is found here. -/
def gjson.Get (w : World) (json : String) (path : String) : gjson.Result :=
  match w.decode json with
  | some doc => gjson.getPath w doc path
  | none => none

/-- The call `gjson.Get(result.Raw, path)`: `Raw` is the text of the document found
before, and the path is read in that document. -/
def gjson.Result.Get (w : World) (result : gjson.Result) (path : String) :
    gjson.Result :=
  match result with
  | none => none
  | some doc => gjson.getPath w doc path

/-- The method `Result.Exists()`: the type is not `Null` or `Raw` is not empty. -/
def gjson.Result.Exists (result : gjson.Result) : Bool := result.isSome

/-- The loop of `Result.String()` over a number literal: after an optional leading
`-`, every byte is a decimal digit. -/
def gjson.isIntegerLiteral (raw : String) : Bool :=
  match raw.data with
  | '-' :: rest => rest.all Char.isDigit
  | cs => cs.all Char.isDigit

/-- The method `Result.String()`. -/
def gjson.Result.String (w : World) : gjson.Result → String
  | none => ""
  | some .null => ""
  | some (.bool false) => "false"
  | some (.bool true) => "true"
  | some (.number raw) =>
    if raw.length = 0 then w.FormatFloat (w.ParseFloat raw)
    else if gjson.isIntegerLiteral raw then raw
    else w.FormatFloat (w.ParseFloat raw)
  | some (.string _ str) => str
  | some (.array raw _) => raw
  | some (.object raw _) => raw

/-- The method `Result.Float()`. -/
def gjson.Result.Float (w : World) : gjson.Result → Float64
  | some (.bool true) => Float64.one
  | some (.string _ str) => w.ParseFloat str
  | some (.number raw) => w.ParseFloat raw
  | _ => Float64.zero

/-! ## The client -/

/-- The function `NewHFModel` (huggingface.go, lines 31-45); `Getenv` is
`os.Getenv`, which returns the empty string for an unset variable. -/
def NewHFModel (Getenv : String → String) (modelName : String) : HFModel :=
  let apiToken := Getenv "HUGGINGFACE_API_TOKEN"
  let apiToken := if apiToken = "" then Getenv "HF_TOKEN" else apiToken
  { ModelName := modelName
    APIToken := apiToken
    Client := { Timeout := DefaultTimeout }
    BaseURL := HuggingFaceAPIBase }

/-- The function `NewHFModelWithToken` (huggingface.go, lines 48-57). -/
def NewHFModelWithToken (modelName apiToken : String) : HFModel :=
  { ModelName := modelName
    APIToken := apiToken
    Client := { Timeout := DefaultTimeout }
    BaseURL := HuggingFaceAPIBase }

/-- The method `HFModel.Classify` (huggingface.go, lines 69-96). -/
def Classify (w : World) (hf : HFModel) (text : String) : Call ClassificationResult :=
  let payload := classifyPayload text
  let call := makeRequest w hf "POST" ("/models/" ++ hf.ModelName) (some (.map payload))
  match call.result with
  | .error err => ⟨call.sent, .error (errorfW "classification request failed" err)⟩
  | .ok response =>
    if !gjson.Valid w response then
      ⟨call.sent, .error (.new ("invalid JSON response: " ++ response))⟩
    else
      let result := gjson.Get w response "0"
      if !result.Exists then
        ⟨call.sent, .error (.new "no classification results in response")⟩
      else
        let label := (result.Get w "label").String w
        let score := (result.Get w "score").Float w
        ⟨call.sent, .ok { Label := label, Score := score }⟩

/-- The method `HFModel.Generate` (huggingface.go, lines 99-152); the field `Score`
of the result is left at its zero value. -/
def Generate (w : World) (hf : HFModel) (prompt : String)
    (options : Option GenerationOptions) : Call GenerationResult :=
  let payload := generatePayload prompt options
  let call := makeRequest w hf "POST" ("/models/" ++ hf.ModelName) (some (.map payload))
  match call.result with
  | .error err => ⟨call.sent, .error (errorfW "generation request failed" err)⟩
  | .ok response =>
    if !gjson.Valid w response then
      ⟨call.sent, .error (.new ("invalid JSON response: " ++ response))⟩
    else
      let result := gjson.Get w response "0"
      if !result.Exists then
        ⟨call.sent, .error (.new "no generation results in response")⟩
      else
        let generatedText := (result.Get w "generated_text").String w
        ⟨call.sent, .ok { GeneratedText := generatedText, Score := Float64.zero }⟩

/-! ## Mock endpoints

The worlds of the tests (`httptest.NewServer` with a fixed handler): every request
is answered with one status and one body; the texts and number literals the mock
knows are listed in two tables. -/

/-- A world whose endpoint answers every request with `status` and `body`; `docs`
lists the texts that are JSON documents, `floats` the values of number literals
(any other literal reads as `0`). -/
def mockWorld (status : Int) (body : String) (docs : List (String × JSON))
    (floats : List (String × Float64)) : World :=
  { newRequestError := fun _ _ => none
    Do := fun _ _ => .ok ⟨status, .ok body⟩
    decode := fun text => mapGet docs text
    ParseFloat := fun s => (mapGet floats s).getD Float64.zero
    FormatFloat := fun _ => ""
    scanLiteral := fun _ _ => none }

/-- The model of the tests, `NewHFModel("test-model")` in an empty environment. -/
def testModel : HFModel := NewHFModel (fun _ => "") "test-model"

/-- The request `Classify` sends for `testModel` and the text `This is a test`. -/
def testClassifyRequest : Request :=
  { Method := "POST"
    URL := "https://api-inference.huggingface.co/models/test-model"
    Header := [("Content-Type", "application/json")]
    Body := some (.map [("inputs", .string "This is a test")]) }

/-- The options of `TestHFModel_Generate`: `MaxLength 50`, `Temperature 0.7`,
`DoSample true`. -/
def testOptions : GenerationOptions :=
  { MaxLength := 50, Temperature := ⟨0x3FE6666666666666⟩, TopP := ⟨0⟩, TopK := 0,
    DoSample := true, NumReturn := 0, Stream := false }

/-- The request `Generate` sends for `testModel`, the prompt `Hello` and
`testOptions`. -/
def testGenerateRequest : Request :=
  { Method := "POST"
    URL := "https://api-inference.huggingface.co/models/test-model"
    Header := [("Content-Type", "application/json")]
    Body := some (.map [("inputs", .string "Hello"),
      ("parameters", .map [("max_length", .int 50),
        ("temperature", .float64 ⟨0x3FE6666666666666⟩), ("do_sample", .bool true)])]) }

/-- The body of `TestHFModel_Classify`. -/
def classifyBody : String := "[\x7b\"label\": \"POSITIVE\", \"score\": 0.9998\x7d]"

/-- The document `classifyBody` denotes. -/
def classifyDoc : JSON :=
  .array classifyBody
    [.object "\x7b\"label\": \"POSITIVE\", \"score\": 0.9998\x7d"
      [("label", .string "\"POSITIVE\"" "POSITIVE"), ("score", .number "0.9998")]]

/-- The mock endpoint of `TestHFModel_Classify`; `0.9998` is `0x3FEFFE5C91D14E3C`. -/
def classifyWorld : World :=
  mockWorld 200 classifyBody [(classifyBody, classifyDoc)]
    [("0.9998", ⟨0x3FEFFE5C91D14E3C⟩)]

/-- The body of `TestHFModel_Generate`. -/
def generateBody : String :=
  "[\x7b\"generated_text\": \"Hello world! This is generated text.\"\x7d]"

/-- The document `generateBody` denotes. -/
def generateDoc : JSON :=
  .array generateBody
    [.object "\x7b\"generated_text\": \"Hello world! This is generated text.\"\x7d"
      [("generated_text",
        .string "\"Hello world! This is generated text.\""
          "Hello world! This is generated text.")]]

/-- The mock endpoint of `TestHFModel_Generate`. -/
def generateWorld : World :=
  mockWorld 200 generateBody [(generateBody, generateDoc)] []

/-- The body of `TestHFModel_APIError`. -/
def errorBody : String := "\x7b\"error\": \"Bad request\"\x7d"

/-- The mock endpoint of `TestHFModel_APIError`: status 400. -/
def errorWorld : World :=
  mockWorld 400 errorBody
    [(errorBody, .object errorBody [("error", .string "\"Bad request\"" "Bad request")])] []

/-- A mock endpoint that answers 200 with the text `not json`. -/
def notJSONWorld : World := mockWorld 200 "not json" [] []

/-- A mock endpoint that answers 200 with the empty array. -/
def emptyArrayWorld : World := mockWorld 200 "[]" [("[]", .array "[]" [])] []

/-- The body of an endpoint that answers with an object keyed `0` in place of an
array. -/
def keyedBody : String :=
  "\x7b\"0\": \x7b\"label\": \"POSITIVE\", \"score\": 0.9998, \"generated_text\": \"Hi\"\x7d\x7d"

/-- The document `keyedBody` denotes. -/
def keyedDoc : JSON :=
  .object keyedBody
    [("0", .object
      "\x7b\"label\": \"POSITIVE\", \"score\": 0.9998, \"generated_text\": \"Hi\"\x7d"
      [("label", .string "\"POSITIVE\"" "POSITIVE"), ("score", .number "0.9998"),
       ("generated_text", .string "\"Hi\"" "Hi")])]

/-- A mock endpoint that answers 200 with `keyedBody`. -/
def keyedWorld : World :=
  mockWorld 200 keyedBody [(keyedBody, keyedDoc)] [("0.9998", ⟨0x3FEFFE5C91D14E3C⟩)]

/-- The body of an endpoint whose fields have other JSON types than the documented
ones: a number for `label`, `true` for `score`, `false` for `generated_text`. -/
def coercedBody : String :=
  "[\x7b\"label\": 5, \"score\": true, \"generated_text\": false\x7d]"

/-- The document `coercedBody` denotes. -/
def coercedDoc : JSON :=
  .array coercedBody
    [.object "\x7b\"label\": 5, \"score\": true, \"generated_text\": false\x7d"
      [("label", .number "5"), ("score", .bool true), ("generated_text", .bool false)]]

/-- A mock endpoint that answers 200 with `coercedBody`. -/
def coercedWorld : World :=
  mockWorld 200 coercedBody [(coercedBody, coercedDoc)] [("5", ⟨0x4014000000000000⟩)]

/-- The documents in which the path `0` finds nothing: the empty array, an object
without a member named `0`, a string literal without a bracket, a number, `true`,
`false` and `null`. -/
def JSON.lacksPathZero : JSON → Bool
  | .array _ elems => elems.isEmpty
  | .object _ members => (mapGet members "0").isNone
  | .string raw _ => !gjson.hasBracket raw
  | .number _ => true
  | .bool _ => true
  | .null => true

/-- A world whose transport fails every request with `err` before a response is
obtained; nothing is ever decoded in it. -/
def failingWorld (err : GoError) : World :=
  { newRequestError := fun _ _ => none
    Do := fun _ _ => .error err
    decode := fun _ => none
    ParseFloat := fun _ => Float64.zero
    FormatFloat := fun _ => ""
    scanLiteral := fun _ _ => none }

/-- The error `Client.Do` returns for the test model when the context of the caller
is cancelled: a `url.Error` around `context.Canceled`. -/
def cancelledError : GoError :=
  .wrap "Post \"https://api-inference.huggingface.co/models/test-model\": context canceled"
    (.new "context canceled")

/-- A mock endpoint that answers 201 with the well-formed body `classifyBody`. -/
def createdWorld : World :=
  mockWorld 201 classifyBody [(classifyBody, classifyDoc)]
    [("0.9998", ⟨0x3FEFFE5C91D14E3C⟩)]

/-- The model of the tests with an explicit token,
`NewHFModelWithToken("test-model", "test-token")`. -/
def tokenModel : HFModel := NewHFModelWithToken "test-model" "test-token"

/-! ## Maps -/

theorem mapGet_mapSet {α : Type} (m : List (String × α)) (k k' : String) (v : α) :
    mapGet (mapSet m k v) k' = if k = k' then some v else mapGet m k' := by
  induction m with
  | nil => simp [mapSet, mapGet]
  | cons e rest ih =>
    obtain ⟨a, b⟩ := e
    by_cases h : a = k
    · subst h
      by_cases h' : a = k' <;> simp [mapSet, mapGet, h']
    · by_cases h' : a = k'
      · subst h'
        have : ¬ k = a := fun e => h e.symm
        simp [mapSet, mapGet, h, this]
      · simp [mapSet, mapGet, h, h', ih]

theorem mapGet_nil {α : Type} (k : String) : mapGet ([] : List (String × α)) k = none := rfl

theorem mapGet_ite_mapSet {α : Type} (c : Prop) [Decidable c] (m : List (String × α))
    (k k' : String) (v : α) :
    mapGet (if c then mapSet m k v else m) k' =
      if k' = k then (if c then some v else mapGet m k') else mapGet m k' := by
  by_cases hc : c
  · by_cases hk : k' = k
    · simp [hc, hk, mapGet_mapSet]
    · have : ¬ k = k' := fun e => hk e.symm
      simp [hc, hk, this, mapGet_mapSet]
  · simp [hc]

/-! ## The requests sent -/

/-- A request that was built carries the method, the URL `BaseURL + endpoint` and the
payload it was built from. -/
theorem buildRequest_fields (w : World) (hf : HFModel) (method endpoint : String)
    (p : Value) (req : Request)
    (h : buildRequest w hf method endpoint (some p) = .ok req) :
    req.Method = method ∧ req.URL = hf.BaseURL ++ endpoint ∧ req.Body = some p := by
  unfold buildRequest Marshal at h
  cases hu : p.unsupported with
  | some f => simp [hu] at h
  | none =>
    cases hn : w.newRequestError method (hf.BaseURL ++ endpoint) with
    | some err => simp [hu, hn] at h
    | none =>
      simp only [hu, hn] at h
      cases h
      exact ⟨rfl, rfl, rfl⟩

/-- The requests `makeRequest` hands to the transport: none, or the one it built. -/
theorem makeRequest_sent (w : World) (hf : HFModel) (method endpoint : String)
    (payload : Option Value) :
    ∀ req ∈ (makeRequest w hf method endpoint payload).sent,
      buildRequest w hf method endpoint payload = .ok req := by
  intro req hmem
  unfold makeRequest at hmem
  cases hb : buildRequest w hf method endpoint payload with
  | error err => simp [hb] at hmem
  | ok r =>
    have : req = r := by
      simp only [hb] at hmem
      cases hd : w.Do hf.Client r with
      | error err => simpa [hd] using hmem
      | ok resp =>
        cases hr : resp.Body with
        | error err => simpa [hd, hr] using hmem
        | ok responseBody =>
          by_cases hc : resp.StatusCode = StatusOK <;> simpa [hd, hr, hc] using hmem
    rw [this]

/-- The requests `Classify` sends are those of its call of `makeRequest`. -/
theorem classify_sent (w : World) (hf : HFModel) (text : String) :
    (Classify w hf text).sent
      = (makeRequest w hf "POST" ("/models/" ++ hf.ModelName)
          (some (.map (classifyPayload text)))).sent := by
  unfold Classify
  simp only
  split
  · rfl
  · split
    · rfl
    · split <;> rfl

/-- The requests `Generate` sends are those of its call of `makeRequest`. -/
theorem generate_sent (w : World) (hf : HFModel) (prompt : String)
    (options : Option GenerationOptions) :
    (Generate w hf prompt options).sent
      = (makeRequest w hf "POST" ("/models/" ++ hf.ModelName)
          (some (.map (generatePayload prompt options)))).sent := by
  unfold Generate
  simp only
  split
  · rfl
  · split
    · rfl
    · split <;> rfl

/-- Every request `Generate` sends has the payload as its body. -/
theorem generate_sent_body (w : World) (hf : HFModel) (prompt : String)
    (options : Option GenerationOptions) :
    ∀ req ∈ (Generate w hf prompt options).sent,
      req.Body = some (.map (generatePayload prompt options)) := by
  intro req hmem
  rw [generate_sent] at hmem
  exact (buildRequest_fields w hf _ _ _ req (makeRequest_sent w hf _ _ _ req hmem)).2.2

/-! ## The payload of `Generate` -/

/-- The entries of `parameters`, in the order the code inserts them. -/
theorem generateParameters_eq (options : GenerationOptions) :
    generateParameters options =
      (if options.MaxLength > 0 then [("max_length", Value.int options.MaxLength)] else [])
      ++ (if options.Temperature.gtZero then
            [("temperature", Value.float64 options.Temperature)] else [])
      ++ (if options.TopP.gtZero then [("top_p", Value.float64 options.TopP)] else [])
      ++ (if options.TopK > 0 then [("top_k", Value.int options.TopK)] else [])
      ++ (if options.DoSample then [("do_sample", Value.bool true)] else [])
      ++ (if options.NumReturn > 0 then
            [("num_return_sequences", Value.int options.NumReturn)] else []) := by
  simp only [generateParameters]
  split_ifs <;> simp_all [mapSet]

theorem generateParameters_keys_nodup (options : GenerationOptions) :
    (mapKeys (generateParameters options)).Nodup := by
  rw [generateParameters_eq]
  simp only [mapKeys]
  split_ifs <;> simp

/-- C1. For non-nil options, the object `parameters` that `Generate` builds holds, for
each of the six option fields, its key exactly when the field passes its test
(`> 0`, or `true` for `DoSample`), with the field as value, each key decided by its
own field only; it holds no other key and no key twice; it is stored in the payload
under `parameters` when it is not empty; for `MaxLength 50`, `Temperature 0.7`,
`DoSample true` and the rest zero it is exactly
`max_length: 50, temperature: 0.7, do_sample: true`; and that payload is the body of
every request `Generate` sends. -/
theorem generate_parameters_exact (options : GenerationOptions) :
    (∀ k : String, mapGet (generateParameters options) k =
      if k = "max_length" then
        (if options.MaxLength > 0 then some (Value.int options.MaxLength) else none)
      else if k = "temperature" then
        (if options.Temperature.gtZero then some (Value.float64 options.Temperature) else none)
      else if k = "top_p" then
        (if options.TopP.gtZero then some (Value.float64 options.TopP) else none)
      else if k = "top_k" then
        (if options.TopK > 0 then some (Value.int options.TopK) else none)
      else if k = "do_sample" then
        (if options.DoSample then some (Value.bool true) else none)
      else if k = "num_return_sequences" then
        (if options.NumReturn > 0 then some (Value.int options.NumReturn) else none)
      else none)
    ∧ (mapKeys (generateParameters options)).Nodup
    ∧ (∀ prompt : String,
        generatePayload prompt (some options) =
          if 0 < (generateParameters options).length then
            [("inputs", Value.string prompt),
             ("parameters", Value.map (generateParameters options))]
          else [("inputs", Value.string prompt)])
    ∧ (∀ stream : Bool,
        generateParameters
          { MaxLength := 50, Temperature := ⟨0x3FE6666666666666⟩, TopP := ⟨0⟩, TopK := 0,
            DoSample := true, NumReturn := 0, Stream := stream }
          = [("max_length", Value.int 50),
             ("temperature", Value.float64 ⟨0x3FE6666666666666⟩),
             ("do_sample", Value.bool true)])
    ∧ (∀ (w : World) (hf : HFModel) (prompt : String),
        ∀ req ∈ (Generate w hf prompt (some options)).sent,
          req.Body = some (Value.map (generatePayload prompt (some options)))) := by
  refine ⟨?_, generateParameters_keys_nodup options, ?_, ?_,
    fun w hf prompt => generate_sent_body w hf prompt (some options)⟩
  · intro k
    simp only [generateParameters, mapGet_ite_mapSet, mapGet_nil]
    by_cases h1 : k = "max_length"
    · subst h1; simp
    by_cases h2 : k = "temperature"
    · subst h2; simp
    by_cases h3 : k = "top_p"
    · subst h3; simp
    by_cases h4 : k = "top_k"
    · subst h4; simp
    by_cases h5 : k = "do_sample"
    · subst h5; simp
      split <;> simp_all
    by_cases h6 : k = "num_return_sequences"
    · subst h6; simp
    simp [h1, h2, h3, h4, h5, h6]
  · intro prompt
    by_cases hlen : 0 < (generateParameters options).length
    · simp [generatePayload, hlen, mapSet]
    · simp [generatePayload, hlen]
  · intro stream
    rw [generateParameters_eq]
    simp [Float64.gtZero, Float64.infBits]

/-- C2. With nil options, and with options whose six fields are all zero (whatever
`Stream` is), the payload of `Generate` is the single entry `inputs` holding the
prompt: it has no `parameters` key, not even an empty object; and that payload is
the body of every request `Generate` then sends. -/
theorem generate_payload_without_parameters (prompt : String) :
    generatePayload prompt none = [("inputs", Value.string prompt)]
    ∧ (∀ stream : Bool,
        generatePayload prompt
          (some { MaxLength := 0, Temperature := Float64.zero, TopP := Float64.zero,
                  TopK := 0, DoSample := false, NumReturn := 0, Stream := stream })
          = [("inputs", Value.string prompt)])
    ∧ mapGet (generatePayload prompt none) "parameters" = none
    ∧ (∀ stream : Bool,
        mapGet (generatePayload prompt
          (some { MaxLength := 0, Temperature := Float64.zero, TopP := Float64.zero,
                  TopK := 0, DoSample := false, NumReturn := 0, Stream := stream }))
          "parameters" = none)
    ∧ (∀ (w : World) (hf : HFModel),
        ∀ req ∈ (Generate w hf prompt none).sent,
          req.Body = some (Value.map [("inputs", Value.string prompt)]))
    ∧ (∀ (w : World) (hf : HFModel) (stream : Bool),
        ∀ req ∈ (Generate w hf prompt
            (some { MaxLength := 0, Temperature := Float64.zero, TopP := Float64.zero,
                    TopK := 0, DoSample := false, NumReturn := 0, Stream := stream })).sent,
          req.Body = some (Value.map [("inputs", Value.string prompt)])) := by
  have h : ∀ stream : Bool,
      generatePayload prompt
          (some { MaxLength := 0, Temperature := Float64.zero, TopP := Float64.zero,
                  TopK := 0, DoSample := false, NumReturn := 0, Stream := stream })
          = [("inputs", Value.string prompt)] := by
    intro stream
    simp [generatePayload, generateParameters_eq, Float64.gtZero, Float64.zero]
  refine ⟨rfl, h, ?_, ?_, ?_, ?_⟩
  · simp [generatePayload, mapGet]
  · intro stream
    rw [h stream]
    simp [mapGet]
  · intro w hf req hmem
    exact generate_sent_body w hf prompt none req hmem
  · intro w hf stream req hmem
    rw [generate_sent_body w hf prompt _ req hmem, h stream]

/-! ## The exchange -/

/-- What `makeRequest` returns once the request is built and the transport has
delivered a response whose body was read. -/
theorem makeRequest_response (w : World) (hf : HFModel) (method endpoint : String)
    (payload : Option Value) (req : Request) (code : Int) (body : String)
    (hreq : buildRequest w hf method endpoint payload = .ok req)
    (hdo : w.Do hf.Client req = .ok ⟨code, .ok body⟩) :
    makeRequest w hf method endpoint payload =
      if code ≠ StatusOK then
        ⟨[req], .error (.new ("API request failed with status "
          ++ toString code ++ ": " ++ body))⟩
      else ⟨[req], .ok body⟩ := by
  simp [makeRequest, hreq, hdo]

/-- The value of `Classify` after an exchange with a status other than 200. -/
theorem classify_of_failure (w : World) (hf : HFModel) (text : String) (req : Request)
    (code : Int) (body : String) (hreq : buildRequest w hf "POST" ("/models/" ++ hf.ModelName)
      (some (.map (classifyPayload text))) = .ok req)
    (hdo : w.Do hf.Client req = .ok ⟨code, .ok body⟩)
    (hcode : code ≠ StatusOK) :
    Classify w hf text = ⟨[req], .error (errorfW "classification request failed"
      (.new ("API request failed with status " ++ toString code ++ ": " ++ body)))⟩ := by
  simp [Classify, makeRequest_response w hf _ _ _ req code body hreq hdo, hcode]

/-- The value of `Generate` after an exchange with a status other than 200. -/
theorem generate_of_failure (w : World) (hf : HFModel) (prompt : String)
    (options : Option GenerationOptions) (req : Request)
    (code : Int) (body : String) (hreq : buildRequest w hf "POST" ("/models/" ++ hf.ModelName)
      (some (.map (generatePayload prompt options))) = .ok req)
    (hdo : w.Do hf.Client req = .ok ⟨code, .ok body⟩)
    (hcode : code ≠ StatusOK) :
    Generate w hf prompt options = ⟨[req], .error (errorfW "generation request failed"
      (.new ("API request failed with status " ++ toString code ++ ": " ++ body)))⟩ := by
  simp [Generate, makeRequest_response w hf _ _ _ req code body hreq hdo, hcode]

/-- The value of `Classify` after an exchange with status 200 and a body that
`gjson.Valid` rejects. -/
theorem classify_of_invalid (w : World) (hf : HFModel) (text : String) (req : Request)
    (body : String) (hreq : buildRequest w hf "POST" ("/models/" ++ hf.ModelName)
      (some (.map (classifyPayload text))) = .ok req)
    (hdo : w.Do hf.Client req = .ok ⟨200, .ok body⟩)
    (hbad : w.decode body = none) :
    Classify w hf text = ⟨[req], .error (.new ("invalid JSON response: " ++ body))⟩ := by
  simp [Classify, makeRequest_response w hf _ _ _ req 200 body hreq hdo, StatusOK,
    gjson.Valid, hbad]

/-- The value of `Generate` after an exchange with status 200 and a body that
`gjson.Valid` rejects. -/
theorem generate_of_invalid (w : World) (hf : HFModel) (prompt : String)
    (options : Option GenerationOptions) (req : Request)
    (body : String) (hreq : buildRequest w hf "POST" ("/models/" ++ hf.ModelName)
      (some (.map (generatePayload prompt options))) = .ok req)
    (hdo : w.Do hf.Client req = .ok ⟨200, .ok body⟩)
    (hbad : w.decode body = none) :
    Generate w hf prompt options
      = ⟨[req], .error (.new ("invalid JSON response: " ++ body))⟩ := by
  simp [Generate, makeRequest_response w hf _ _ _ req 200 body hreq hdo, StatusOK,
    gjson.Valid, hbad]

/-- The value of `Classify` after an exchange with status 200 and a body that is the
JSON document `doc`. -/
theorem classify_of_document (w : World) (hf : HFModel) (text : String) (req : Request)
    (body : String) (doc : JSON) (hreq : buildRequest w hf "POST" ("/models/" ++ hf.ModelName)
      (some (.map (classifyPayload text))) = .ok req)
    (hdo : w.Do hf.Client req = .ok ⟨200, .ok body⟩)
    (hdoc : w.decode body = some doc) :
    Classify w hf text =
      match gjson.getPath w doc "0" with
      | none => ⟨[req], .error (.new "no classification results in response")⟩
      | some e =>
        ⟨[req], .ok { Label := gjson.Result.String w (gjson.getPath w e "label"),
                      Score := gjson.Result.Float w (gjson.getPath w e "score") }⟩ := by
  cases h : gjson.getPath w doc "0" <;>
    simp [Classify, makeRequest_response w hf _ _ _ req 200 body hreq hdo, StatusOK,
      gjson.Valid, gjson.Get, hdoc, h, gjson.Result.Exists, gjson.Result.Get]

/-- The value of `Generate` after an exchange with status 200 and a body that is the
JSON document `doc`. -/
theorem generate_of_document (w : World) (hf : HFModel) (prompt : String)
    (options : Option GenerationOptions) (req : Request)
    (body : String) (doc : JSON) (hreq : buildRequest w hf "POST" ("/models/" ++ hf.ModelName)
      (some (.map (generatePayload prompt options))) = .ok req)
    (hdo : w.Do hf.Client req = .ok ⟨200, .ok body⟩)
    (hdoc : w.decode body = some doc) :
    Generate w hf prompt options =
      match gjson.getPath w doc "0" with
      | none => ⟨[req], .error (.new "no generation results in response")⟩
      | some e =>
        ⟨[req], .ok { GeneratedText :=
                        gjson.Result.String w (gjson.getPath w e "generated_text"),
                      Score := Float64.zero }⟩ := by
  cases h : gjson.getPath w doc "0" <;>
    simp [Generate, makeRequest_response w hf _ _ _ req 200 body hreq hdo, StatusOK,
      gjson.Valid, gjson.Get, hdoc, h, gjson.Result.Exists, gjson.Result.Get]

/-! ## Reading the response -/

theorem get_zero_array (w : World) (raw : String) (elems : List JSON) :
    gjson.getPath w (.array raw elems) "0" = elems.head? := by
  have h : gjson.parseUint "0" = some 0 := by decide
  cases elems <;> simp [gjson.getPath, h]

theorem get_key_array (w : World) (raw key : String) (elems : List JSON)
    (h : gjson.parseUint key = none) : gjson.getPath w (.array raw elems) key = none := by
  simp [gjson.getPath, h]

theorem get_object (w : World) (raw key : String) (members : List (String × JSON)) :
    gjson.getPath w (.object raw members) key = mapGet members key := rfl

/-- In a document that lacks the path `0`, `gjson.Get` finds nothing for it. -/
theorem get_zero_lacking (w : World) (doc : JSON) (hzero : doc.lacksPathZero = true) :
    gjson.getPath w doc "0" = none := by
  cases doc with
  | null => rfl
  | bool b => rfl
  | number n => rfl
  | string sraw str =>
    have : gjson.hasBracket sraw = false := by simpa [JSON.lacksPathZero] using hzero
    simp [gjson.getPath, this]
  | array araw elems =>
    have : elems = [] := by simpa [JSON.lacksPathZero] using hzero
    subst this
    simp [get_zero_array]
  | object oraw members =>
    have : mapGet members "0" = none := by simpa [JSON.lacksPathZero] using hzero
    simp [get_object, this]

/-- The text that `Result.String()` reads from a member of the first element. -/
theorem result_string_cases (w : World) (r : gjson.Result) :
    gjson.Result.String w r =
      (match r with
        | none => ""
        | some .null => ""
        | some (.bool false) => "false"
        | some (.bool true) => "true"
        | some (.number n) =>
          if n.length ≠ 0 ∧ gjson.isIntegerLiteral n then n
          else w.FormatFloat (w.ParseFloat n)
        | some (.string _ str) => str
        | some (.array t _) => t
        | some (.object t _) => t) := by
  cases r with
  | none => rfl
  | some v => cases v with
    | bool b => cases b <;> rfl
    | number n =>
      by_cases h0 : n.length = 0
      · simp [gjson.Result.String, h0]
      · by_cases h1 : gjson.isIntegerLiteral n = true <;>
          simp [gjson.Result.String, h0, h1]
    | _ => rfl

/-- The float that `Result.Float()` reads from a member of the first element. -/
theorem result_float_cases (w : World) (r : gjson.Result) :
    gjson.Result.Float w r =
      (match r with
        | some (.number n) => w.ParseFloat n
        | some (.string _ str) => w.ParseFloat str
        | some (.bool true) => Float64.one
        | _ => Float64.zero) := by
  cases r with
  | none => rfl
  | some v => cases v with
    | bool b => cases b <;> rfl
    | _ => rfl

/-- In an element that is not an object and not a string literal holding a bracket, a
key finds nothing. -/
theorem get_key_memberless (w : World) (e : JSON) (key : String)
    (hkey : gjson.parseUint key = none)
    (hobj : ∀ oraw members, e ≠ .object oraw members)
    (hstr : ∀ sraw str, e = .string sraw str → gjson.hasBracket sraw = false) :
    gjson.getPath w e key = none := by
  cases e with
  | null => rfl
  | bool b => rfl
  | number n => rfl
  | string sraw str =>
    have : gjson.hasBracket sraw = false := hstr sraw str rfl
    simp [gjson.getPath, this]
  | array araw elems => exact get_key_array w araw key elems hkey
  | object oraw members => exact absurd rfl (hobj oraw members)

/-! ## The requests of the tests -/

/-- The request of `Classify` for the test model. -/
theorem testClassifyRequest_built (w : World) (h : ∀ m u, w.newRequestError m u = none) :
    buildRequest w testModel "POST" ("/models/" ++ testModel.ModelName)
      (some (.map (classifyPayload "This is a test"))) = .ok testClassifyRequest := by
  simp [buildRequest, h, Marshal, Value.unsupported, unsupportedEntries, classifyPayload,
    testModel, NewHFModel, testClassifyRequest, mapSet, HuggingFaceAPIBase]

/-- The request of `Generate` for the test model and the test options. -/
theorem testGenerateRequest_built (w : World) (h : ∀ m u, w.newRequestError m u = none) :
    buildRequest w testModel "POST" ("/models/" ++ testModel.ModelName)
      (some (.map (generatePayload "Hello" (some testOptions)))) = .ok testGenerateRequest := by
  have hp : generatePayload "Hello" (some testOptions) =
      [("inputs", .string "Hello"),
       ("parameters", .map [("max_length", .int 50),
         ("temperature", .float64 ⟨0x3FE6666666666666⟩), ("do_sample", .bool true)])] := by
    simp [generatePayload, generateParameters_eq, testOptions, Float64.gtZero,
      Float64.infBits, mapSet]
  rw [hp]
  simp [buildRequest, h, Marshal, Value.unsupported, unsupportedEntries,
    testModel, NewHFModel, testGenerateRequest, mapSet, HuggingFaceAPIBase,
    Float64.isFinite]

/-! ## Results -/

/-- C3. When the request of `Classify` was sent and answered with status 200 and a
body that is a JSON array whose first element is an object with `label` the string
`L` and `score` the number `S`, `Classify` returns no error and the result with
`Label` exactly `L` and `Score` the value of `S`; the other elements of the array do
not matter, and the transport was used once. -/
theorem classify_first_element (w : World) (hf : HFModel) (text : String) (req : Request)
    (body raw oraw lraw L S : String) (members : List (String × JSON)) (rest : List JSON)
    (hreq : buildRequest w hf "POST" ("/models/" ++ hf.ModelName)
      (some (.map (classifyPayload text))) = .ok req)
    (hdo : w.Do hf.Client req = .ok ⟨200, .ok body⟩)
    (hdoc : w.decode body = some (.array raw (.object oraw members :: rest)))
    (hlabel : mapGet members "label" = some (.string lraw L))
    (hscore : mapGet members "score" = some (.number S)) :
    Classify w hf text = ⟨[req], .ok { Label := L, Score := w.ParseFloat S }⟩ := by
  rw [classify_of_document w hf text req body _ hreq hdo hdoc]
  simp [get_zero_array, get_object, hlabel, hscore, gjson.Result.String,
    gjson.Result.Float]

/-- Witness of C3: the exchange of `TestHFModel_Classify`. -/
theorem classify_first_element_witness :
    Classify classifyWorld testModel "This is a test"
      = ⟨[testClassifyRequest],
         .ok { Label := "POSITIVE", Score := classifyWorld.ParseFloat "0.9998" }⟩ :=
  classify_first_element classifyWorld testModel "This is a test" testClassifyRequest
    classifyBody classifyBody "\x7b\"label\": \"POSITIVE\", \"score\": 0.9998\x7d"
    "\"POSITIVE\"" "POSITIVE" "0.9998"
    [("label", .string "\"POSITIVE\"" "POSITIVE"), ("score", .number "0.9998")] []
    (testClassifyRequest_built _ (fun _ _ => rfl)) rfl rfl rfl rfl

/-- C4. When the request of `Generate` (for any prompt and options) was sent and
answered with status 200 and a body that is a JSON array whose first element is an
object with `generated_text` the string `T`, `Generate` returns no error and a
result whose `GeneratedText` is exactly `T`. -/
theorem generate_first_element (w : World) (hf : HFModel) (prompt : String)
    (options : Option GenerationOptions) (req : Request)
    (body raw oraw traw T : String) (members : List (String × JSON)) (rest : List JSON)
    (hreq : buildRequest w hf "POST" ("/models/" ++ hf.ModelName)
      (some (.map (generatePayload prompt options))) = .ok req)
    (hdo : w.Do hf.Client req = .ok ⟨200, .ok body⟩)
    (hdoc : w.decode body = some (.array raw (.object oraw members :: rest)))
    (htext : mapGet members "generated_text" = some (.string traw T)) :
    Generate w hf prompt options
      = ⟨[req], .ok { GeneratedText := T, Score := Float64.zero }⟩ := by
  rw [generate_of_document w hf prompt options req body _ hreq hdo hdoc]
  simp [get_zero_array, get_object, htext, gjson.Result.String]

/-- Witness of C4: the exchange of `TestHFModel_Generate`. -/
theorem generate_first_element_witness :
    Generate generateWorld testModel "Hello" (some testOptions)
      = ⟨[testGenerateRequest],
         .ok { GeneratedText := "Hello world! This is generated text.",
               Score := Float64.zero }⟩ :=
  generate_first_element generateWorld testModel "Hello" (some testOptions)
    testGenerateRequest generateBody generateBody
    "\x7b\"generated_text\": \"Hello world! This is generated text.\"\x7d"
    "\"Hello world! This is generated text.\"" "Hello world! This is generated text."
    [("generated_text",
      .string "\"Hello world! This is generated text.\""
        "Hello world! This is generated text.")] []
    (testGenerateRequest_built _ (fun _ _ => rfl)) rfl rfl rfl

/-- The message of a request-failed error holds the status code and the body. -/
theorem failure_message (context : String) (code : Int) (B : String) :
    (errorfW context (.new ("API request failed with status "
        ++ toString code ++ ": " ++ B))).Error
      = context ++ ": API request failed with status " ++ toString code ++ ": " ++ B
    ∧ (toString code).data <:+: (errorfW context (.new ("API request failed with status "
        ++ toString code ++ ": " ++ B))).Error.data
    ∧ B.data <:+: (errorfW context (.new ("API request failed with status "
        ++ toString code ++ ": " ++ B))).Error.data := by
  have hmsg : (errorfW context (.new ("API request failed with status "
        ++ toString code ++ ": " ++ B))).Error
      = context ++ ": API request failed with status " ++ toString code ++ ": " ++ B := by
    simp only [errorfW, GoError.Error, String.append_assoc]
    congr 1
  refine ⟨hmsg, ?_, ?_⟩
  · rw [hmsg]
    exact ⟨(context ++ ": API request failed with status ").data, (": " ++ B).data,
      by simp [String.data_append]⟩
  · rw [hmsg]
    exact ⟨(context ++ ": API request failed with status " ++ toString code ++ ": ").data,
      [], by simp [String.data_append]⟩

/-- C5. For a status code outside 200..299 and any body `B`: whenever the request
of `Classify`, or of `Generate`, was sent and answered with that status and body,
the call returns no result and the error `<operation> request failed: API request
failed with status <code>: <B>`, whose message contains the decimal status code and
contains `B` verbatim; what `B` is (a valid JSON array included) plays no role. -/
theorem request_failed_on_non_2xx (w : World) (hf : HFModel) (code : Int) (B : String)
    (hcode : code < 200 ∨ 299 < code) :
    (∀ text req, buildRequest w hf "POST" ("/models/" ++ hf.ModelName)
        (some (.map (classifyPayload text))) = .ok req →
      w.Do hf.Client req = .ok ⟨code, .ok B⟩ →
      ∃ e : GoError, Classify w hf text = ⟨[req], .error e⟩
        ∧ e.Error = "classification request failed: API request failed with status "
            ++ toString code ++ ": " ++ B
        ∧ (toString code).data <:+: e.Error.data ∧ B.data <:+: e.Error.data)
    ∧ (∀ prompt options req, buildRequest w hf "POST" ("/models/" ++ hf.ModelName)
        (some (.map (generatePayload prompt options))) = .ok req →
      w.Do hf.Client req = .ok ⟨code, .ok B⟩ →
      ∃ e : GoError, Generate w hf prompt options = ⟨[req], .error e⟩
        ∧ e.Error = "generation request failed: API request failed with status "
            ++ toString code ++ ": " ++ B
        ∧ (toString code).data <:+: e.Error.data ∧ B.data <:+: e.Error.data) := by
  have hne : code ≠ StatusOK := by
    unfold StatusOK
    omega
  constructor
  · intro text req hreq hdo
    obtain ⟨h1, h2, h3⟩ := failure_message "classification request failed" code B
    exact ⟨_, classify_of_failure w hf text req code B hreq hdo hne, h1, h2, h3⟩
  · intro prompt options req hreq hdo
    obtain ⟨h1, h2, h3⟩ := failure_message "generation request failed" code B
    exact ⟨_, generate_of_failure w hf prompt options req code B hreq hdo hne, h1, h2, h3⟩

/-- Witness of C5: the exchange of `TestHFModel_APIError`, status 400. -/
theorem request_failed_on_non_2xx_witness :
    (∃ e : GoError,
      Classify errorWorld testModel "This is a test" = ⟨[testClassifyRequest], .error e⟩
      ∧ e.Error = "classification request failed: API request failed with status "
          ++ toString (400 : Int) ++ ": " ++ errorBody
      ∧ (toString (400 : Int)).data <:+: e.Error.data ∧ errorBody.data <:+: e.Error.data)
    ∧ (∃ e : GoError,
      Generate errorWorld testModel "Hello" (some testOptions)
        = ⟨[testGenerateRequest], .error e⟩
      ∧ e.Error = "generation request failed: API request failed with status "
          ++ toString (400 : Int) ++ ": " ++ errorBody
      ∧ (toString (400 : Int)).data <:+: e.Error.data ∧ errorBody.data <:+: e.Error.data) :=
  ⟨(request_failed_on_non_2xx errorWorld testModel 400 errorBody (by decide)).1
      "This is a test" testClassifyRequest
      (testClassifyRequest_built _ (fun _ _ => rfl)) rfl,
   (request_failed_on_non_2xx errorWorld testModel 400 errorBody (by decide)).2
      "Hello" (some testOptions) testGenerateRequest
      (testGenerateRequest_built _ (fun _ _ => rfl)) rfl⟩

/-- C6. For a body that is not valid JSON: whenever the request of `Classify`, or of
`Generate`, was sent and answered with status 200 and that body, the call returns no
result and the error `invalid JSON response: <body>`, a malformed-response error
and neither an empty-result error nor a result with default fields. -/
theorem malformed_response_rejected (w : World) (hf : HFModel) (body : String)
    (hbad : gjson.Valid w body = false) :
    (∀ text req, buildRequest w hf "POST" ("/models/" ++ hf.ModelName)
        (some (.map (classifyPayload text))) = .ok req →
      w.Do hf.Client req = .ok ⟨200, .ok body⟩ →
      Classify w hf text = ⟨[req], .error (.new ("invalid JSON response: " ++ body))⟩)
    ∧ (∀ prompt options req, buildRequest w hf "POST" ("/models/" ++ hf.ModelName)
        (some (.map (generatePayload prompt options))) = .ok req →
      w.Do hf.Client req = .ok ⟨200, .ok body⟩ →
      Generate w hf prompt options
        = ⟨[req], .error (.new ("invalid JSON response: " ++ body))⟩)
    ∧ "invalid JSON response".data
        <+: (GoError.new ("invalid JSON response: " ++ body)).Error.data
    ∧ GoError.new ("invalid JSON response: " ++ body)
        ≠ GoError.new "no classification results in response"
    ∧ GoError.new ("invalid JSON response: " ++ body)
        ≠ GoError.new "no generation results in response" := by
  have hnone : w.decode body = none := by
    simpa [gjson.Valid] using hbad
  have hne : ∀ t : String, t.data.head? = some 'n' →
      GoError.new ("invalid JSON response: " ++ body) ≠ GoError.new t := by
    intro t ht h
    have h' : ("invalid JSON response: " ++ body).data.head? = t.data.head? := by
      rw [GoError.new.inj h]
    rw [ht] at h'
    simp [String.data_append] at h'
  refine ⟨?_, ?_, ?_, hne _ (by decide), hne _ (by decide)⟩
  · intro text req hreq hdo
    exact classify_of_invalid w hf text req body hreq hdo hnone
  · intro prompt options req hreq hdo
    exact generate_of_invalid w hf prompt options req body hreq hdo hnone
  · refine ⟨(": " ++ body).data, ?_⟩
    simp only [GoError.Error, String.data_append, ← List.append_assoc]
    rfl

/-- Witness of C6: an endpoint that answers with the text `not json`. -/
theorem malformed_response_rejected_witness :
    Classify notJSONWorld testModel "This is a test"
      = ⟨[testClassifyRequest], .error (.new ("invalid JSON response: " ++ "not json"))⟩
    ∧ Generate notJSONWorld testModel "Hello" (some testOptions)
        = ⟨[testGenerateRequest],
           .error (.new ("invalid JSON response: " ++ "not json"))⟩ :=
  ⟨(malformed_response_rejected notJSONWorld testModel "not json" rfl).1
      "This is a test" testClassifyRequest
      (testClassifyRequest_built _ (fun _ _ => rfl)) rfl,
   (malformed_response_rejected notJSONWorld testModel "not json" rfl).2.1
      "Hello" (some testOptions) testGenerateRequest
      (testGenerateRequest_built _ (fun _ _ => rfl)) rfl⟩

/-- C7, as stated, fails: a status-200 body that is valid JSON and whose top-level
value is not an array, the object `keyedBody` with a member named `0`, is not
rejected; `Classify` and `Generate` read that member as if it were element 0 and
return a result. -/
theorem empty_result_claim_refuted :
    (∀ raw e rest, keyedDoc ≠ JSON.array raw (e :: rest))
    ∧ buildRequest keyedWorld testModel "POST" ("/models/" ++ testModel.ModelName)
        (some (.map (classifyPayload "This is a test"))) = .ok testClassifyRequest
    ∧ keyedWorld.Do testModel.Client testClassifyRequest = .ok ⟨200, .ok keyedBody⟩
    ∧ buildRequest keyedWorld testModel "POST" ("/models/" ++ testModel.ModelName)
        (some (.map (generatePayload "Hello" (some testOptions)))) = .ok testGenerateRequest
    ∧ keyedWorld.Do testModel.Client testGenerateRequest = .ok ⟨200, .ok keyedBody⟩
    ∧ gjson.Valid keyedWorld keyedBody = true
    ∧ keyedWorld.decode keyedBody = some keyedDoc
    ∧ Classify keyedWorld testModel "This is a test"
        = ⟨[testClassifyRequest],
           .ok { Label := "POSITIVE", Score := ⟨0x3FEFFE5C91D14E3C⟩ }⟩
    ∧ (Classify keyedWorld testModel "This is a test").result
        ≠ .error (.new "no classification results in response")
    ∧ Generate keyedWorld testModel "Hello" (some testOptions)
        = ⟨[testGenerateRequest], .ok { GeneratedText := "Hi", Score := Float64.zero }⟩
    ∧ (Generate keyedWorld testModel "Hello" (some testOptions)).result
        ≠ .error (.new "no generation results in response") := by
  have hC : Classify keyedWorld testModel "This is a test"
      = ⟨[testClassifyRequest],
         .ok { Label := "POSITIVE", Score := ⟨0x3FEFFE5C91D14E3C⟩ }⟩ := by
    rw [classify_of_document keyedWorld testModel _ testClassifyRequest keyedBody keyedDoc
      (testClassifyRequest_built _ (fun _ _ => rfl)) rfl rfl]
    rfl
  have hG : Generate keyedWorld testModel "Hello" (some testOptions)
      = ⟨[testGenerateRequest], .ok { GeneratedText := "Hi", Score := Float64.zero }⟩ := by
    rw [generate_of_document keyedWorld testModel _ _ testGenerateRequest keyedBody keyedDoc
      (testGenerateRequest_built _ (fun _ _ => rfl)) rfl rfl]
    rfl
  refine ⟨?_, testClassifyRequest_built _ (fun _ _ => rfl), rfl,
    testGenerateRequest_built _ (fun _ _ => rfl), rfl, rfl, rfl,
    hC, ?_, hG, ?_⟩
  · intro raw e rest h
    simp [keyedDoc] at h
  · rw [hC]
    simp
  · rw [hG]
    simp

/-- C7, amended. For a body that is valid JSON in which the path `0` finds nothing
(the empty array, a number, `true`, `false`, `null`, a string literal without a
bracket, or an object without a member named `0`): whenever the request of
`Classify` was sent and answered with status 200 and that body, `Classify` fails
with `no classification results in response`, and likewise `Generate` fails with
`no generation results in response`; neither returns a result. -/
theorem empty_result_without_path_zero (w : World) (hf : HFModel) (body : String)
    (doc : JSON) (hdoc : w.decode body = some doc) (hzero : doc.lacksPathZero = true) :
    (∀ text req, buildRequest w hf "POST" ("/models/" ++ hf.ModelName)
        (some (.map (classifyPayload text))) = .ok req →
      w.Do hf.Client req = .ok ⟨200, .ok body⟩ →
      Classify w hf text
        = ⟨[req], .error (.new "no classification results in response")⟩)
    ∧ (∀ prompt options req, buildRequest w hf "POST" ("/models/" ++ hf.ModelName)
        (some (.map (generatePayload prompt options))) = .ok req →
      w.Do hf.Client req = .ok ⟨200, .ok body⟩ →
      Generate w hf prompt options
        = ⟨[req], .error (.new "no generation results in response")⟩) := by
  have hget : gjson.getPath w doc "0" = none := get_zero_lacking w doc hzero
  constructor
  · intro text req hreq hdo
    rw [classify_of_document w hf text req body doc hreq hdo hdoc, hget]
  · intro prompt options req hreq hdo
    rw [generate_of_document w hf prompt options req body doc hreq hdo hdoc, hget]

/-- Witness of C7, amended: an endpoint that answers with the empty array. -/
theorem empty_result_without_path_zero_witness :
    Classify emptyArrayWorld testModel "This is a test"
      = ⟨[testClassifyRequest], .error (.new "no classification results in response")⟩
    ∧ Generate emptyArrayWorld testModel "Hello" (some testOptions)
        = ⟨[testGenerateRequest], .error (.new "no generation results in response")⟩ :=
  ⟨(empty_result_without_path_zero emptyArrayWorld testModel "[]" (.array "[]" []) rfl
      rfl).1 "This is a test" testClassifyRequest
      (testClassifyRequest_built _ (fun _ _ => rfl)) rfl,
   (empty_result_without_path_zero emptyArrayWorld testModel "[]" (.array "[]" []) rfl
      rfl).2 "Hello" (some testOptions) testGenerateRequest
      (testGenerateRequest_built _ (fun _ _ => rfl)) rfl⟩

/-- C8, as stated, fails: for the status-200 body `coercedBody`, an array whose first
element has a number for `label`, `true` for `score` and `false` for
`generated_text`, the fields are not read as their defaults: `Label` is the text
`5`, `Score` is `1`, and `GeneratedText` is the text `false`. -/
theorem field_defaults_claim_refuted :
    buildRequest coercedWorld testModel "POST" ("/models/" ++ testModel.ModelName)
        (some (.map (classifyPayload "This is a test"))) = .ok testClassifyRequest
    ∧ coercedWorld.Do testModel.Client testClassifyRequest = .ok ⟨200, .ok coercedBody⟩
    ∧ buildRequest coercedWorld testModel "POST" ("/models/" ++ testModel.ModelName)
        (some (.map (generatePayload "Hello" (some testOptions)))) = .ok testGenerateRequest
    ∧ coercedWorld.Do testModel.Client testGenerateRequest = .ok ⟨200, .ok coercedBody⟩
    ∧ coercedWorld.decode coercedBody = some coercedDoc
    ∧ Classify coercedWorld testModel "This is a test"
        = ⟨[testClassifyRequest], .ok { Label := "5", Score := Float64.one }⟩
    ∧ Generate coercedWorld testModel "Hello" (some testOptions)
        = ⟨[testGenerateRequest], .ok { GeneratedText := "false", Score := Float64.zero }⟩
    ∧ ("5" : String) ≠ "" ∧ Float64.one ≠ Float64.zero ∧ ("false" : String) ≠ "" := by
  refine ⟨testClassifyRequest_built _ (fun _ _ => rfl), rfl,
    testGenerateRequest_built _ (fun _ _ => rfl), rfl, rfl, ?_, ?_,
    by decide, by decide, by decide⟩
  · rw [classify_of_document coercedWorld testModel _ testClassifyRequest coercedBody
      coercedDoc (testClassifyRequest_built _ (fun _ _ => rfl)) rfl rfl]
    rfl
  · rw [generate_of_document coercedWorld testModel _ _ testGenerateRequest coercedBody
      coercedDoc (testGenerateRequest_built _ (fun _ _ => rfl)) rfl rfl]
    rfl

/-- C8, amended. For a body that is a JSON array with a first element `e`: whenever
the request was sent and answered with status 200 and that body, `Classify` and
`Generate` succeed whatever `e` is. If `e` is an object, each field is read from the
first member with its key, independently of the other members: a missing member or
`null` gives the default (empty text, score 0); `label` and `generated_text` are the
content of a string, the literal of an integer number (the formatted value of any
other number), the text `true` or `false` of a boolean, and the text of an array or
object; `score` is the value of a number, the value read from the content of a
string, `1` for `true`, and `0` otherwise. If `e` is an array, a number, a boolean,
`null` or a string literal without a bracket, all fields are the defaults. -/
theorem fields_read_with_coercion (w : World) (hf : HFModel) (body raw : String)
    (e : JSON) (rest : List JSON)
    (hdoc : w.decode body = some (.array raw (e :: rest))) :
    (∀ text req, buildRequest w hf "POST" ("/models/" ++ hf.ModelName)
        (some (.map (classifyPayload text))) = .ok req →
      w.Do hf.Client req = .ok ⟨200, .ok body⟩ →
      ∃ r : ClassificationResult, Classify w hf text = ⟨[req], .ok r⟩
        ∧ (∀ oraw members, e = .object oraw members →
            r.Label =
              (match mapGet members "label" with
                | none => ""
                | some .null => ""
                | some (.bool false) => "false"
                | some (.bool true) => "true"
                | some (.number n) =>
                  if n.length ≠ 0 ∧ gjson.isIntegerLiteral n then n
                  else w.FormatFloat (w.ParseFloat n)
                | some (.string _ str) => str
                | some (.array t _) => t
                | some (.object t _) => t)
            ∧ r.Score =
              (match mapGet members "score" with
                | some (.number n) => w.ParseFloat n
                | some (.string _ str) => w.ParseFloat str
                | some (.bool true) => Float64.one
                | _ => Float64.zero))
        ∧ ((∀ oraw members, e ≠ .object oraw members) →
            (∀ sraw str, e = .string sraw str → gjson.hasBracket sraw = false) →
            r.Label = "" ∧ r.Score = Float64.zero))
    ∧ (∀ prompt options req, buildRequest w hf "POST" ("/models/" ++ hf.ModelName)
        (some (.map (generatePayload prompt options))) = .ok req →
      w.Do hf.Client req = .ok ⟨200, .ok body⟩ →
      ∃ g : GenerationResult, Generate w hf prompt options = ⟨[req], .ok g⟩
        ∧ (∀ oraw members, e = .object oraw members →
            g.GeneratedText =
              (match mapGet members "generated_text" with
                | none => ""
                | some .null => ""
                | some (.bool false) => "false"
                | some (.bool true) => "true"
                | some (.number n) =>
                  if n.length ≠ 0 ∧ gjson.isIntegerLiteral n then n
                  else w.FormatFloat (w.ParseFloat n)
                | some (.string _ str) => str
                | some (.array t _) => t
                | some (.object t _) => t))
        ∧ ((∀ oraw members, e ≠ .object oraw members) →
            (∀ sraw str, e = .string sraw str → gjson.hasBracket sraw = false) →
            g.GeneratedText = "")) := by
  constructor
  · intro text req hreq hdo
    refine ⟨{ Label := gjson.Result.String w (gjson.getPath w e "label"),
              Score := gjson.Result.Float w (gjson.getPath w e "score") }, ?_, ?_, ?_⟩
    · rw [classify_of_document w hf text req body _ hreq hdo hdoc, get_zero_array]
      rfl
    · intro oraw members he
      subst he
      exact ⟨result_string_cases w _, result_float_cases w _⟩
    · intro hobj hstr
      simp only
      rw [get_key_memberless w e "label" (by decide) hobj hstr,
        get_key_memberless w e "score" (by decide) hobj hstr]
      exact ⟨rfl, rfl⟩
  · intro prompt options req hreq hdo
    refine ⟨{ GeneratedText := gjson.Result.String w (gjson.getPath w e "generated_text"),
              Score := Float64.zero }, ?_, ?_, ?_⟩
    · rw [generate_of_document w hf prompt options req body _ hreq hdo hdoc, get_zero_array]
      rfl
    · intro oraw members he
      subst he
      exact result_string_cases w _
    · intro hobj hstr
      simp only
      rw [get_key_memberless w e "generated_text" (by decide) hobj hstr]
      rfl

/-- Witness of C8, amended: an endpoint whose fields have other JSON types. -/
theorem fields_read_with_coercion_witness :
    (∃ r : ClassificationResult,
      Classify coercedWorld testModel "This is a test" = ⟨[testClassifyRequest], .ok r⟩
      ∧ r.Label = "5" ∧ r.Score = Float64.one)
    ∧ (∃ g : GenerationResult,
      Generate coercedWorld testModel "Hello" (some testOptions)
        = ⟨[testGenerateRequest], .ok g⟩
      ∧ g.GeneratedText = "false") := by
  have h := fields_read_with_coercion coercedWorld testModel coercedBody coercedBody
    (.object "\x7b\"label\": 5, \"score\": true, \"generated_text\": false\x7d"
      [("label", .number "5"), ("score", .bool true), ("generated_text", .bool false)])
    [] rfl
  obtain ⟨r, hr, hfields, _⟩ :=
    h.1 "This is a test" testClassifyRequest
      (testClassifyRequest_built _ (fun _ _ => rfl)) rfl
  obtain ⟨g, hg, htext, _⟩ :=
    h.2 "Hello" (some testOptions) testGenerateRequest
      (testGenerateRequest_built _ (fun _ _ => rfl)) rfl
  exact ⟨⟨r, hr, (hfields _ _ rfl).1, (hfields _ _ rfl).2⟩, ⟨g, hg, htext _ _ rfl⟩⟩

/-- C9. For every model name, token (the empty one included) and environment,
`NewHFModelWithToken` returns the client with that name, exactly that token, the
base URL `HuggingFaceAPIBase` and the timeout `DefaultTimeout` of 30 seconds; it
does not read the environment: it is the client `NewHFModel` builds in any
environment, with the token replaced. -/
theorem new_with_token_uses_token (Getenv : String → String) (modelName apiToken : String) :
    (NewHFModelWithToken modelName apiToken).APIToken = apiToken
    ∧ (NewHFModelWithToken modelName apiToken).ModelName = modelName
    ∧ (NewHFModelWithToken modelName apiToken).BaseURL = HuggingFaceAPIBase
    ∧ (NewHFModelWithToken modelName apiToken).Client.Timeout = DefaultTimeout
    ∧ DefaultTimeout = 30 * 1000000000
    ∧ NewHFModelWithToken modelName apiToken
        = { NewHFModel Getenv modelName with APIToken := apiToken } :=
  ⟨rfl, rfl, rfl, rfl, by decide, rfl⟩

/-- C10. For every environment, `NewHFModel` sets the token to the first non-empty
value among `HUGGINGFACE_API_TOKEN`, `HF_TOKEN`, in that order, and to the empty
string when neither has one; the name is the argument, and the base URL and timeout
are the constants, whatever the environment is. -/
theorem new_reads_token_from_environment (Getenv : String → String) (modelName : String) :
    (NewHFModel Getenv modelName).APIToken
        = ((["HUGGINGFACE_API_TOKEN", "HF_TOKEN"].map Getenv).find? (fun v => v != "")).getD ""
    ∧ (NewHFModel Getenv modelName).APIToken
        = (if Getenv "HUGGINGFACE_API_TOKEN" ≠ "" then Getenv "HUGGINGFACE_API_TOKEN"
           else Getenv "HF_TOKEN")
    ∧ (NewHFModel Getenv modelName).ModelName = modelName
    ∧ (NewHFModel Getenv modelName).BaseURL = HuggingFaceAPIBase
    ∧ (NewHFModel Getenv modelName).Client.Timeout = DefaultTimeout
    ∧ NewHFModel Getenv modelName
        = { NewHFModel (fun _ => "") modelName with
            APIToken := (NewHFModel Getenv modelName).APIToken } := by
  refine ⟨?_, ?_, rfl, rfl, rfl, rfl⟩
  · by_cases h1 : Getenv "HUGGINGFACE_API_TOKEN" = ""
    · by_cases h2 : Getenv "HF_TOKEN" = ""
      · simp [NewHFModel, h1, h2, List.find?]
      · have hb : (Getenv "HF_TOKEN" != "") = true := by simpa using h2
        simp [NewHFModel, h1, hb, List.find?]
    · have hb : (Getenv "HUGGINGFACE_API_TOKEN" != "") = true := by simpa using h1
      simp [NewHFModel, h1, hb, List.find?]
  · by_cases h1 : Getenv "HUGGINGFACE_API_TOKEN" = "" <;> simp [NewHFModel, h1]

/-! ## The request issued -/

/-- The header fields of a request that was built: `Content-Type`, and
`Authorization` when the token is not empty. -/
theorem buildRequest_header (w : World) (hf : HFModel) (method endpoint : String)
    (p : Value) (req : Request)
    (h : buildRequest w hf method endpoint (some p) = .ok req) :
    req.Header =
      if hf.APIToken ≠ "" then
        [("Content-Type", "application/json"), ("Authorization", "Bearer " ++ hf.APIToken)]
      else [("Content-Type", "application/json")] := by
  unfold buildRequest Marshal at h
  cases hu : p.unsupported with
  | some f => simp [hu] at h
  | none =>
    cases hn : w.newRequestError method (hf.BaseURL ++ endpoint) with
    | some err => simp [hu, hn] at h
    | none =>
      simp only [hu, hn] at h
      cases h
      by_cases ht : hf.APIToken = "" <;> simp [ht, mapSet]

/-- The requests `makeRequest` hands to the transport: the one it built, once, or
none when building failed. -/
theorem makeRequest_sent_eq (w : World) (hf : HFModel) (method endpoint : String)
    (payload : Option Value) :
    (makeRequest w hf method endpoint payload).sent =
      match buildRequest w hf method endpoint payload with
      | .ok req => [req]
      | .error _ => [] := by
  unfold makeRequest
  cases hb : buildRequest w hf method endpoint payload with
  | error err => rfl
  | ok r =>
    simp only
    cases hd : w.Do hf.Client r with
    | error err => rfl
    | ok resp =>
      cases hr : resp.Body with
      | error err => simp [hr]
      | ok responseBody =>
        by_cases hc : resp.StatusCode = StatusOK <;> simp [hr, hc]

/-- The payload of `Classify` always marshals: the request of `Classify` is built
exactly when the URL is accepted. -/
theorem classify_buildRequest (w : World) (hf : HFModel) (text : String) :
    buildRequest w hf "POST" ("/models/" ++ hf.ModelName)
        (some (.map (classifyPayload text))) =
      match w.newRequestError "POST" (hf.BaseURL ++ ("/models/" ++ hf.ModelName)) with
      | some err => .error (errorfW "failed to create request" err)
      | none =>
        .ok { Method := "POST"
              URL := hf.BaseURL ++ ("/models/" ++ hf.ModelName)
              Header :=
                if hf.APIToken ≠ "" then
                  [("Content-Type", "application/json"),
                   ("Authorization", "Bearer " ++ hf.APIToken)]
                else [("Content-Type", "application/json")]
              Body := some (.map [("inputs", .string text)]) } := by
  cases hn : w.newRequestError "POST" (hf.BaseURL ++ ("/models/" ++ hf.ModelName)) with
  | some err =>
    simp [buildRequest, Marshal, Value.unsupported, unsupportedEntries, classifyPayload, hn]
  | none =>
    by_cases ht : hf.APIToken = "" <;>
      simp [buildRequest, Marshal, Value.unsupported, unsupportedEntries, classifyPayload,
        hn, ht, mapSet]

/-- C11. For every client and text, `Classify` issues at most one request, and
exactly one when the URL is accepted: method `POST`, URL `BaseURL + "/models/" +
ModelName`, header `Content-Type: application/json`, body the object with the single
key `inputs` holding the text, and a header `Authorization: Bearer <APIToken>`
exactly when the token is not empty (no such header otherwise). Every request
`Generate` issues has the same method, URL and header fields. -/
theorem classify_request_shape (w : World) (hf : HFModel) (text : String) :
    (Classify w hf text).sent =
      (match w.newRequestError "POST" (hf.BaseURL ++ "/models/" ++ hf.ModelName) with
        | some _ => []
        | none =>
          [{ Method := "POST"
             URL := hf.BaseURL ++ "/models/" ++ hf.ModelName
             Header :=
               if hf.APIToken ≠ "" then
                 [("Content-Type", "application/json"),
                  ("Authorization", "Bearer " ++ hf.APIToken)]
               else [("Content-Type", "application/json")]
             Body := some (Value.map [("inputs", Value.string text)]) }])
    ∧ (∀ req ∈ (Classify w hf text).sent,
        req.Method = "POST"
        ∧ req.URL = hf.BaseURL ++ "/models/" ++ hf.ModelName
        ∧ mapGet req.Header "Content-Type" = some "application/json"
        ∧ mapGet req.Header "Authorization"
            = (if hf.APIToken ≠ "" then some ("Bearer " ++ hf.APIToken) else none)
        ∧ req.Body = some (Value.map [("inputs", Value.string text)]))
    ∧ (Classify w hf text).sent.length ≤ 1
    ∧ (∀ (prompt : String) (options : Option GenerationOptions),
        ∀ req ∈ (Generate w hf prompt options).sent,
          req.Method = "POST"
          ∧ req.URL = hf.BaseURL ++ "/models/" ++ hf.ModelName
          ∧ req.Header =
              (if hf.APIToken ≠ "" then
                [("Content-Type", "application/json"),
                 ("Authorization", "Bearer " ++ hf.APIToken)]
               else [("Content-Type", "application/json")]))
    ∧ (Classify classifyWorld tokenModel "This is a test").sent =
        [{ Method := "POST"
           URL := "https://api-inference.huggingface.co/models/test-model"
           Header := [("Content-Type", "application/json"),
                      ("Authorization", "Bearer test-token")]
           Body := some (Value.map [("inputs", Value.string "This is a test")]) }] := by
  have hsent : (Classify w hf text).sent =
      (match w.newRequestError "POST" (hf.BaseURL ++ "/models/" ++ hf.ModelName) with
        | some _ => []
        | none =>
          [{ Method := "POST"
             URL := hf.BaseURL ++ "/models/" ++ hf.ModelName
             Header :=
               if hf.APIToken ≠ "" then
                 [("Content-Type", "application/json"),
                  ("Authorization", "Bearer " ++ hf.APIToken)]
               else [("Content-Type", "application/json")]
             Body := some (Value.map [("inputs", Value.string text)]) }]) := by
    rw [classify_sent, makeRequest_sent_eq, classify_buildRequest, String.append_assoc]
    cases w.newRequestError "POST" (hf.BaseURL ++ ("/models/" ++ hf.ModelName)) <;> rfl
  refine ⟨hsent, ?_, ?_, ?_, ?_⟩
  · intro req hmem
    rw [hsent] at hmem
    cases hn : w.newRequestError "POST" (hf.BaseURL ++ "/models/" ++ hf.ModelName) with
    | some err => simp [hn] at hmem
    | none =>
      simp only [hn, List.mem_singleton] at hmem
      subst hmem
      by_cases ht : hf.APIToken = "" <;> simp [ht, mapGet]
  · rw [hsent]
    cases w.newRequestError "POST" (hf.BaseURL ++ "/models/" ++ hf.ModelName) <;> simp
  · intro prompt options req hmem
    rw [generate_sent] at hmem
    have hb := makeRequest_sent w hf _ _ _ req hmem
    obtain ⟨hm, hu, _⟩ := buildRequest_fields w hf _ _ _ req hb
    refine ⟨hm, ?_, buildRequest_header w hf _ _ _ req hb⟩
    rw [hu, String.append_assoc]
  · rw [classify_sent, makeRequest_sent_eq, classify_buildRequest]
    rfl

/-! ## The errors returned -/

/-- The message of an error built with `%w` begins with its context. -/
theorem errorfW_message (context : String) (err : GoError) :
    (errorfW context err).Error = context ++ ": " ++ err.Error
    ∧ (context ++ ": ").data <+: (errorfW context err).Error.data :=
  ⟨rfl, ⟨err.Error.data, by simp [errorfW, GoError.Error, String.data_append]⟩⟩

/-- The five errors of `makeRequest`: the payload does not marshal, the request
cannot be created, the transport fails, the body cannot be read, or the status is
not 200. -/
theorem makeRequest_error_cases (w : World) (hf : HFModel) (method endpoint : String)
    (payload : Option Value) (err : GoError)
    (h : (makeRequest w hf method endpoint payload).result = .error err) :
    (∃ c, err = errorfW "failed to marshal payload" c)
    ∨ (∃ c, err = errorfW "failed to create request" c)
    ∨ (∃ c, err = errorfW "failed to make request" c)
    ∨ (∃ c, err = errorfW "failed to read response" c)
    ∨ (∃ (code : Int) (body : String), code ≠ StatusOK
        ∧ err = .new ("API request failed with status " ++ toString code ++ ": " ++ body)) := by
  unfold makeRequest at h
  cases hb : buildRequest w hf method endpoint payload with
  | error e =>
    simp only [hb] at h
    cases h
    unfold buildRequest at hb
    cases payload with
    | none =>
      simp only at hb
      cases hn : w.newRequestError method (hf.BaseURL ++ endpoint) with
      | some c =>
        simp only [hn] at hb
        cases hb
        exact Or.inr (Or.inl ⟨c, rfl⟩)
      | none => simp [hn] at hb
    | some p =>
      simp only at hb
      cases hmar : Marshal p with
      | error c =>
        simp only [hmar] at hb
        cases hb
        exact Or.inl ⟨c, rfl⟩
      | ok jsonData =>
        simp only [hmar] at hb
        cases hn : w.newRequestError method (hf.BaseURL ++ endpoint) with
        | some c =>
          simp only [hn] at hb
          cases hb
          exact Or.inr (Or.inl ⟨c, rfl⟩)
        | none => simp [hn] at hb
  | ok r =>
    simp only [hb] at h
    cases hd : w.Do hf.Client r with
    | error c =>
      simp only [hd] at h
      cases h
      exact Or.inr (Or.inr (Or.inl ⟨c, rfl⟩))
    | ok resp =>
      simp only [hd] at h
      cases hr : resp.Body with
      | error c =>
        simp only [hr] at h
        cases h
        exact Or.inr (Or.inr (Or.inr (Or.inl ⟨c, rfl⟩)))
      | ok responseBody =>
        simp only [hr] at h
        by_cases hc : resp.StatusCode = StatusOK
        · simp [hc] at h
        · simp only [ne_eq, hc, not_false_eq_true, ite_true] at h
          cases h
          exact Or.inr (Or.inr (Or.inr (Or.inr ⟨resp.StatusCode, responseBody, hc, rfl⟩)))

/-- The four ways `Classify` returns: the error of `makeRequest` wrapped, the
malformed-response error, the empty-result error, or a result. -/
theorem classify_result_cases (w : World) (hf : HFModel) (text : String) :
    (∃ err, (makeRequest w hf "POST" ("/models/" ++ hf.ModelName)
          (some (.map (classifyPayload text)))).result = .error err
        ∧ (Classify w hf text).result
            = .error (errorfW "classification request failed" err))
    ∨ (∃ response, (makeRequest w hf "POST" ("/models/" ++ hf.ModelName)
          (some (.map (classifyPayload text)))).result = .ok response
        ∧ gjson.Valid w response = false
        ∧ (Classify w hf text).result
            = .error (.new ("invalid JSON response: " ++ response)))
    ∨ (∃ response, (makeRequest w hf "POST" ("/models/" ++ hf.ModelName)
          (some (.map (classifyPayload text)))).result = .ok response
        ∧ gjson.Valid w response = true
        ∧ (Classify w hf text).result
            = .error (.new "no classification results in response"))
    ∨ (∃ r, (Classify w hf text).result = .ok r) := by
  unfold Classify
  simp only
  cases hm : (makeRequest w hf "POST" ("/models/" ++ hf.ModelName)
      (some (.map (classifyPayload text)))).result with
  | error err => exact Or.inl ⟨err, rfl, rfl⟩
  | ok response =>
    simp only
    by_cases hv : gjson.Valid w response = true
    · by_cases hx : (gjson.Get w response "0").Exists = true
      · exact Or.inr (Or.inr (Or.inr
          ⟨{ Label := gjson.Result.String w
                (gjson.Result.Get w (gjson.Get w response "0") "label"),
             Score := gjson.Result.Float w
                (gjson.Result.Get w (gjson.Get w response "0") "score") },
           by simp [hv, hx]⟩))
      · exact Or.inr (Or.inr (Or.inl ⟨response, rfl, hv, by simp [hv, hx]⟩))
    · have hv' : gjson.Valid w response = false := by simpa using hv
      exact Or.inr (Or.inl ⟨response, rfl, hv', by simp [hv']⟩)

/-- The four ways `Generate` returns, as for `Classify`. -/
theorem generate_result_cases (w : World) (hf : HFModel) (prompt : String)
    (options : Option GenerationOptions) :
    (∃ err, (makeRequest w hf "POST" ("/models/" ++ hf.ModelName)
          (some (.map (generatePayload prompt options)))).result = .error err
        ∧ (Generate w hf prompt options).result
            = .error (errorfW "generation request failed" err))
    ∨ (∃ response, (makeRequest w hf "POST" ("/models/" ++ hf.ModelName)
          (some (.map (generatePayload prompt options)))).result = .ok response
        ∧ gjson.Valid w response = false
        ∧ (Generate w hf prompt options).result
            = .error (.new ("invalid JSON response: " ++ response)))
    ∨ (∃ response, (makeRequest w hf "POST" ("/models/" ++ hf.ModelName)
          (some (.map (generatePayload prompt options)))).result = .ok response
        ∧ gjson.Valid w response = true
        ∧ (Generate w hf prompt options).result
            = .error (.new "no generation results in response"))
    ∨ (∃ g, (Generate w hf prompt options).result = .ok g) := by
  unfold Generate
  simp only
  cases hm : (makeRequest w hf "POST" ("/models/" ++ hf.ModelName)
      (some (.map (generatePayload prompt options)))).result with
  | error err => exact Or.inl ⟨err, rfl, rfl⟩
  | ok response =>
    simp only
    by_cases hv : gjson.Valid w response = true
    · by_cases hx : (gjson.Get w response "0").Exists = true
      · exact Or.inr (Or.inr (Or.inr
          ⟨{ GeneratedText := gjson.Result.String w
                (gjson.Result.Get w (gjson.Get w response "0") "generated_text"),
             Score := Float64.zero },
           by simp [hv, hx]⟩))
      · exact Or.inr (Or.inr (Or.inl ⟨response, rfl, hv, by simp [hv, hx]⟩))
    · have hv' : gjson.Valid w response = false := by simpa using hv
      exact Or.inr (Or.inl ⟨response, rfl, hv', by simp [hv']⟩)

/-- C12, as stated, fails: the malformed-response error and the empty-result error
are returned as they are built, without the prefix of the operation. For the body
`not json` the message of `Classify` and of `Generate` is `invalid JSON response: not
json`, and for the body `[]` it is `no classification results in response` and `no
generation results in response`; none begins with `classification request failed`
or `generation request failed`. -/
theorem error_prefix_claim_refuted :
    (Classify notJSONWorld testModel "This is a test").result
        = .error (.new "invalid JSON response: not json")
    ∧ ¬ ("classification request failed".data
          <+: (GoError.new "invalid JSON response: not json").Error.data)
    ∧ (Generate notJSONWorld testModel "Hello" (some testOptions)).result
        = .error (.new "invalid JSON response: not json")
    ∧ ¬ ("generation request failed".data
          <+: (GoError.new "invalid JSON response: not json").Error.data)
    ∧ (Classify emptyArrayWorld testModel "This is a test").result
        = .error (.new "no classification results in response")
    ∧ ¬ ("classification request failed".data
          <+: (GoError.new "no classification results in response").Error.data)
    ∧ (Generate emptyArrayWorld testModel "Hello" (some testOptions)).result
        = .error (.new "no generation results in response")
    ∧ ¬ ("generation request failed".data
          <+: (GoError.new "no generation results in response").Error.data) := by
  refine ⟨?_, by decide, ?_, by decide, ?_, by decide, ?_, by decide⟩
  · rw [classify_of_invalid notJSONWorld testModel _ testClassifyRequest "not json"
      (testClassifyRequest_built _ (fun _ _ => rfl)) rfl rfl]
    rfl
  · rw [generate_of_invalid notJSONWorld testModel _ _ testGenerateRequest "not json"
      (testGenerateRequest_built _ (fun _ _ => rfl)) rfl rfl]
    rfl
  · rw [classify_of_document emptyArrayWorld testModel _ testClassifyRequest "[]"
      (.array "[]" []) (testClassifyRequest_built _ (fun _ _ => rfl)) rfl rfl]
    rfl
  · rw [generate_of_document emptyArrayWorld testModel _ _ testGenerateRequest "[]"
      (.array "[]" []) (testGenerateRequest_built _ (fun _ _ => rfl)) rfl rfl]
    rfl

/-- C12, amended. Every error `makeRequest` returns (the payload does not marshal,
the request cannot be created, the transport fails, the body cannot be read, the
status is not 200) is returned by `Classify` wrapped, with a message that begins
with `classification request failed: `, and by `Generate` with `generation request
failed: `. Every other error of `Classify` is the malformed-response error `invalid
JSON response: <body>` or the empty-result error `no classification results in
response` (for `Generate`: `no generation results in response`), returned without
that prefix. -/
theorem error_prefix_for_request_errors (w : World) (hf : HFModel) (text prompt : String)
    (options : Option GenerationOptions) :
    (∀ e, (Classify w hf text).result = .error e →
      (∃ err, (makeRequest w hf "POST" ("/models/" ++ hf.ModelName)
            (some (.map (classifyPayload text)))).result = .error err
          ∧ e = errorfW "classification request failed" err
          ∧ e.Error = "classification request failed" ++ ": " ++ err.Error
          ∧ ("classification request failed" ++ ": ").data <+: e.Error.data)
      ∨ (∃ response, (makeRequest w hf "POST" ("/models/" ++ hf.ModelName)
            (some (.map (classifyPayload text)))).result = .ok response
          ∧ (e = .new ("invalid JSON response: " ++ response)
              ∨ e = .new "no classification results in response")))
    ∧ (∀ err, (makeRequest w hf "POST" ("/models/" ++ hf.ModelName)
            (some (.map (classifyPayload text)))).result = .error err →
        (Classify w hf text).result
          = .error (errorfW "classification request failed" err))
    ∧ (∀ e, (Generate w hf prompt options).result = .error e →
      (∃ err, (makeRequest w hf "POST" ("/models/" ++ hf.ModelName)
            (some (.map (generatePayload prompt options)))).result = .error err
          ∧ e = errorfW "generation request failed" err
          ∧ e.Error = "generation request failed" ++ ": " ++ err.Error
          ∧ ("generation request failed" ++ ": ").data <+: e.Error.data)
      ∨ (∃ response, (makeRequest w hf "POST" ("/models/" ++ hf.ModelName)
            (some (.map (generatePayload prompt options)))).result = .ok response
          ∧ (e = .new ("invalid JSON response: " ++ response)
              ∨ e = .new "no generation results in response")))
    ∧ (∀ err, (makeRequest w hf "POST" ("/models/" ++ hf.ModelName)
            (some (.map (generatePayload prompt options)))).result = .error err →
        (Generate w hf prompt options).result
          = .error (errorfW "generation request failed" err))
    ∧ (∀ (method endpoint : String) (payload : Option Value) (err : GoError),
        (makeRequest w hf method endpoint payload).result = .error err →
        (∃ c, err = errorfW "failed to marshal payload" c)
        ∨ (∃ c, err = errorfW "failed to create request" c)
        ∨ (∃ c, err = errorfW "failed to make request" c)
        ∨ (∃ c, err = errorfW "failed to read response" c)
        ∨ (∃ (code : Int) (body : String), code ≠ StatusOK
            ∧ err = .new ("API request failed with status "
                ++ toString code ++ ": " ++ body))) := by
  refine ⟨?_, ?_, ?_, ?_, fun m ep pl err h => makeRequest_error_cases w hf m ep pl err h⟩
  · intro e he
    rcases classify_result_cases w hf text with
      ⟨err, hm, hr⟩ | ⟨response, hm, _, hr⟩ | ⟨response, hm, _, hr⟩ | ⟨r, hr⟩
    · rw [hr] at he
      cases he
      exact Or.inl ⟨err, hm, rfl, (errorfW_message _ err).1, (errorfW_message _ err).2⟩
    · rw [hr] at he
      cases he
      exact Or.inr ⟨response, hm, Or.inl rfl⟩
    · rw [hr] at he
      cases he
      exact Or.inr ⟨response, hm, Or.inr rfl⟩
    · rw [hr] at he
      cases he
  · intro err hm
    rcases classify_result_cases w hf text with
      ⟨err', hm', hr⟩ | ⟨response, hm', _, _⟩ | ⟨response, hm', _, _⟩ | ⟨r, hr⟩
    · rw [hm] at hm'
      cases hm'
      exact hr
    · rw [hm] at hm'
      cases hm'
    · rw [hm] at hm'
      cases hm'
    · unfold Classify at hr
      simp [hm] at hr
  · intro e he
    rcases generate_result_cases w hf prompt options with
      ⟨err, hm, hr⟩ | ⟨response, hm, _, hr⟩ | ⟨response, hm, _, hr⟩ | ⟨r, hr⟩
    · rw [hr] at he
      cases he
      exact Or.inl ⟨err, hm, rfl, (errorfW_message _ err).1, (errorfW_message _ err).2⟩
    · rw [hr] at he
      cases he
      exact Or.inr ⟨response, hm, Or.inl rfl⟩
    · rw [hr] at he
      cases he
      exact Or.inr ⟨response, hm, Or.inr rfl⟩
    · rw [hr] at he
      cases he
  · intro err hm
    rcases generate_result_cases w hf prompt options with
      ⟨err', hm', hr⟩ | ⟨response, hm', _, _⟩ | ⟨response, hm', _, _⟩ | ⟨r, hr⟩
    · rw [hm] at hm'
      cases hm'
      exact hr
    · rw [hm] at hm'
      cases hm'
    · rw [hm] at hm'
      cases hm'
    · unfold Generate at hr
      simp [hm] at hr

/-! ## Transport errors and the status check -/

/-- The value of `Classify` when the transport fails. -/
theorem classify_of_transport_error (w : World) (hf : HFModel) (text : String)
    (req : Request) (terr : GoError)
    (hreq : buildRequest w hf "POST" ("/models/" ++ hf.ModelName)
      (some (.map (classifyPayload text))) = .ok req)
    (hdo : w.Do hf.Client req = .error terr) :
    Classify w hf text = ⟨[req], .error (errorfW "classification request failed"
      (errorfW "failed to make request" terr))⟩ := by
  simp [Classify, makeRequest, hreq, hdo]

/-- The value of `Generate` when the transport fails. -/
theorem generate_of_transport_error (w : World) (hf : HFModel) (prompt : String)
    (options : Option GenerationOptions) (req : Request) (terr : GoError)
    (hreq : buildRequest w hf "POST" ("/models/" ++ hf.ModelName)
      (some (.map (generatePayload prompt options))) = .ok req)
    (hdo : w.Do hf.Client req = .error terr) :
    Generate w hf prompt options = ⟨[req], .error (errorfW "generation request failed"
      (errorfW "failed to make request" terr))⟩ := by
  simp [Generate, makeRequest, hreq, hdo]

/-- An error wrapped twice with `%w` still is its cause, for `errors.Is`. -/
theorem wrapped_twice_is (outer inner : String) (terr : GoError) :
    (errorfW outer (errorfW inner terr)).Is terr = true := by
  have hself : ∀ e : GoError, e.Is e = true := by
    intro e
    cases e <;> simp [GoError.Is]
  simp [errorfW, GoError.Is, hself]

/-- No call hands more than one request to the transport. -/
theorem sent_at_most_once (w : World) (hf : HFModel) (method endpoint : String)
    (payload : Option Value) :
    (makeRequest w hf method endpoint payload).sent.length ≤ 1 := by
  rw [makeRequest_sent_eq]
  cases buildRequest w hf method endpoint payload <;> simp

/-- C13. With the transport as a step that returns a response or an error: whenever
the request of `Classify`, or of `Generate`, was built and the transport returns an
error `terr` for it, the call returns no result and the error `<operation> request
failed: failed to make request: <terr>`, which wraps `terr` (`errors.Is` finds it)
and is neither the malformed-response nor the empty-result error; the transport was
handed that one request, once. No call hands the transport more than one request. -/
theorem transport_error_wrapped (w : World) (hf : HFModel) (terr : GoError) :
    (∀ text req, buildRequest w hf "POST" ("/models/" ++ hf.ModelName)
        (some (.map (classifyPayload text))) = .ok req →
      w.Do hf.Client req = .error terr →
      Classify w hf text = ⟨[req], .error (errorfW "classification request failed"
        (errorfW "failed to make request" terr))⟩)
    ∧ (∀ prompt options req, buildRequest w hf "POST" ("/models/" ++ hf.ModelName)
        (some (.map (generatePayload prompt options))) = .ok req →
      w.Do hf.Client req = .error terr →
      Generate w hf prompt options = ⟨[req], .error (errorfW "generation request failed"
        (errorfW "failed to make request" terr))⟩)
    ∧ (errorfW "classification request failed"
        (errorfW "failed to make request" terr)).Is terr = true
    ∧ (errorfW "generation request failed"
        (errorfW "failed to make request" terr)).Is terr = true
    ∧ (errorfW "classification request failed" (errorfW "failed to make request" terr)).Error
        = "classification request failed: failed to make request: " ++ terr.Error
    ∧ (errorfW "generation request failed" (errorfW "failed to make request" terr)).Error
        = "generation request failed: failed to make request: " ++ terr.Error
    ∧ (∀ msg : String, errorfW "classification request failed"
        (errorfW "failed to make request" terr) ≠ GoError.new msg)
    ∧ (∀ msg : String, errorfW "generation request failed"
        (errorfW "failed to make request" terr) ≠ GoError.new msg)
    ∧ (∀ text, (Classify w hf text).sent.length ≤ 1)
    ∧ (∀ prompt options, (Generate w hf prompt options).sent.length ≤ 1) := by
  refine ⟨?_, ?_, wrapped_twice_is _ _ terr, wrapped_twice_is _ _ terr, ?_, ?_, ?_, ?_,
    ?_, ?_⟩
  · intro text req hreq hdo
    exact classify_of_transport_error w hf text req terr hreq hdo
  · intro prompt options req hreq hdo
    exact generate_of_transport_error w hf prompt options req terr hreq hdo
  · have hlit : "classification request failed: failed to make request: "
        = "classification request failed" ++ ": " ++ ("failed to make request" ++ ": ") := by
      decide
    rw [hlit, (errorfW_message _ _).1, (errorfW_message _ _).1]
    simp only [String.append_assoc]
  · have hlit : "generation request failed: failed to make request: "
        = "generation request failed" ++ ": " ++ ("failed to make request" ++ ": ") := by
      decide
    rw [hlit, (errorfW_message _ _).1, (errorfW_message _ _).1]
    simp only [String.append_assoc]
  · intro msg h
    simp [errorfW] at h
  · intro msg h
    simp [errorfW] at h
  · intro text
    rw [classify_sent]
    exact sent_at_most_once w hf _ _ _
  · intro prompt options
    rw [generate_sent]
    exact sent_at_most_once w hf _ _ _

/-- Witness of C13: the context of the caller is cancelled before the endpoint
responds. -/
theorem transport_error_wrapped_witness :
    Classify (failingWorld cancelledError) testModel "This is a test"
      = ⟨[testClassifyRequest], .error (errorfW "classification request failed"
          (errorfW "failed to make request" cancelledError))⟩
    ∧ Generate (failingWorld cancelledError) testModel "Hello" (some testOptions)
      = ⟨[testGenerateRequest], .error (errorfW "generation request failed"
          (errorfW "failed to make request" cancelledError))⟩ :=
  ⟨(transport_error_wrapped (failingWorld cancelledError) testModel cancelledError).1
      "This is a test" testClassifyRequest
      (testClassifyRequest_built _ (fun _ _ => rfl)) rfl,
   (transport_error_wrapped (failingWorld cancelledError) testModel cancelledError).2.1
      "Hello" (some testOptions) testGenerateRequest
      (testGenerateRequest_built _ (fun _ _ => rfl)) rfl⟩

/-- C14. The status check of `makeRequest` is equality with 200: a response whose
body was read is passed on to JSON parsing exactly when its status code is 200.
For every other status code, 201, 202 and 204 included, and every body, a
well-formed result array included, `Classify` and `Generate` fail with the error
`API request failed with status <code>: <body>`, wrapped with the prefix of the
operation. -/
theorem status_check_is_exact (w : World) (hf : HFModel) (code : Int) (body : String)
    (hcode : code ≠ 200) :
    (∀ text req, buildRequest w hf "POST" ("/models/" ++ hf.ModelName)
        (some (.map (classifyPayload text))) = .ok req →
      w.Do hf.Client req = .ok ⟨code, .ok body⟩ →
      Classify w hf text = ⟨[req], .error (errorfW "classification request failed"
        (.new ("API request failed with status " ++ toString code ++ ": " ++ body)))⟩)
    ∧ (∀ prompt options req, buildRequest w hf "POST" ("/models/" ++ hf.ModelName)
        (some (.map (generatePayload prompt options))) = .ok req →
      w.Do hf.Client req = .ok ⟨code, .ok body⟩ →
      Generate w hf prompt options = ⟨[req], .error (errorfW "generation request failed"
        (.new ("API request failed with status " ++ toString code ++ ": " ++ body)))⟩)
    ∧ (∀ (c : Int) (method endpoint : String) (payload : Option Value) (req : Request)
        (b : String), buildRequest w hf method endpoint payload = .ok req →
      w.Do hf.Client req = .ok ⟨c, .ok b⟩ →
      ((makeRequest w hf method endpoint payload).result = .ok b ↔ c = 200))
    ∧ (∀ context : String,
        ("API request failed with status " ++ toString code ++ ": " ++ body).data
          <:+ (errorfW context (.new ("API request failed with status "
                ++ toString code ++ ": " ++ body))).Error.data) := by
  have hne : code ≠ StatusOK := hcode
  refine ⟨?_, ?_, ?_, ?_⟩
  · intro text req hreq hdo
    exact classify_of_failure w hf text req code body hreq hdo hne
  · intro prompt options req hreq hdo
    exact generate_of_failure w hf prompt options req code body hreq hdo hne
  · intro c method endpoint payload req b hreq hdo
    rw [makeRequest_response w hf method endpoint payload req c b hreq hdo]
    by_cases hc : c = 200
    · simp [hc, StatusOK]
    · have hc' : c ≠ StatusOK := hc
      simp [hc, hc']
  · intro context
    exact ⟨(context ++ ": ").data, by simp [errorfW, GoError.Error, String.data_append]⟩

/-- Witness of C14: an endpoint that answers 201 with the well-formed body of
`TestHFModel_Classify`. -/
theorem status_check_is_exact_witness :
    createdWorld.decode classifyBody = some classifyDoc
    ∧ Classify createdWorld testModel "This is a test"
      = ⟨[testClassifyRequest], .error (errorfW "classification request failed"
          (.new ("API request failed with status " ++ toString (201 : Int) ++ ": "
            ++ classifyBody)))⟩
    ∧ Generate createdWorld testModel "Hello" (some testOptions)
      = ⟨[testGenerateRequest], .error (errorfW "generation request failed"
          (.new ("API request failed with status " ++ toString (201 : Int) ++ ": "
            ++ classifyBody)))⟩ :=
  ⟨rfl,
   (status_check_is_exact createdWorld testModel 201 classifyBody (by decide)).1
      "This is a test" testClassifyRequest
      (testClassifyRequest_built _ (fun _ _ => rfl)) rfl,
   (status_check_is_exact createdWorld testModel 201 classifyBody (by decide)).2.1
      "Hello" (some testOptions) testGenerateRequest
      (testGenerateRequest_built _ (fun _ _ => rfl)) rfl⟩

end GoTransformers
